import Mathlib

/-!
Verification development for the LLMStorageService repository
(content-addressed document storage gateway).

The definitions below are a shallow embedding of the Python source under
`src/storage/src/`:

* `modules/storage.py` — base `StorageInterface` (metadata model, the
  derivation pipeline `ensure_ocr`, `get_file_data`, `file_exists`);
* `modules/interfaces/local.py` — `LocalStorageInterface`;
* `modules/interfaces/amazons3.py` — `AmazonS3Interface`;
* `modules/interfaces/gdrive.py` — `GoogleDriveInterface`;
* `main.py` — the HTTP `upload_file` endpoint.

Modelling conventions:

* byte strings are `List Nat`;
* Python `dict` objects (the checksum-keyed metadata cache, the lock
  table, the set of stored objects) are insertion-ordered association
  lists with in-place update, mirroring Python dict semantics;
* the remote authoritative metadata document is modelled as a
  `RemoteDoc`: absent, present-but-unparseable, or a parsed
  `{"files": ...}` mapping (JSON (de)serialization of the cache is
  abstracted to the identity on the parsed value);
* every operation returns its result, the post state, and an ordered
  trace of externally observable events (cache writes, remote metadata
  writes, object uploads/deletions, task scheduling);
* external collaborators (the SHA3-256 digest from `hashlib`, wall-clock
  timestamps, `modules.ocr.process_document`, `modules.ocr.summarize_document`,
  backend byte download) are parameters of the operations that call them;
* `utils/jsondb.py` is not part of the sources. Modelled from the spec:
  the Metadata Cache Store is "a durable, JSON-serialized mapping from
  content checksum to file metadata, guarded by scoped read/modify/write
  access, local to the process"; it appears here as the in-memory
  `file_cache` field, read directly and mutated in place by the scoped
  `async with self.file_cache as db` blocks of the source.
-/

namespace LLMStorage

/-- A content checksum (hex digest), the key of every cache. -/
abbrev Checksum := String

/-- FileData from modules/storage.py: the persisted per-checksum metadata. -/
structure FileData where
  file_reference : String
  name : String
  mime_type : String
  size : Nat
  modified_time : String
  raw_ocr : Option String := none
  summary : Option String := none
deriving DecidableEq, Repr

/-- RawFileData from modules/storage.py: transient upload/download payload. -/
structure RawFileData where
  content : List Nat
  name : String
  mime_type : String
deriving DecidableEq, Repr

/-- FileDataResponse from modules/storage.py. -/
structure FileDataResponse where
  checksum : String
  is_processing : Bool
  file_data : FileData
deriving DecidableEq, Repr

/-- The `ensure_process` / derivation-level argument: "none", "ocr", "summary". -/
inductive EnsureProcess where
  | none
  | ocr
  | summary
deriving DecidableEq, Repr

/-- The files mapping of FileDataCache (modules/storage.py), keyed by checksum.
Modelled as an insertion-ordered association list, like a Python dict. -/
abbrev CacheFiles := List (Checksum × FileData)

/-- Python dict read: first (unique) binding for a key. -/
def getEntry (c : Checksum) : CacheFiles → Option FileData
  | [] => Option.none
  | (k, v) :: rest => if k = c then some v else getEntry c rest

/-- Python `checksum in cache.files`. -/
def hasEntry (c : Checksum) (fs : CacheFiles) : Bool :=
  (getEntry c fs).isSome

/-- Python dict assignment `files[c] = fd`: update in place, append if new. -/
def setEntry (c : Checksum) (fd : FileData) : CacheFiles → CacheFiles
  | [] => [(c, fd)]
  | (k, v) :: rest => if k = c then (k, fd) :: rest else (k, v) :: setEntry c fd rest

/-- Python `del files[c]`. -/
def delEntry (c : Checksum) : CacheFiles → CacheFiles
  | [] => []
  | (k, v) :: rest => if k = c then rest else (k, v) :: delEntry c rest

/-- The processing-lock table `processing_locks : Dict[str, asyncio.Lock]`:
presence of a key means a lock object exists, the Bool is whether it is
currently held (`.locked()`). -/
abbrev LockTable := List (Checksum × Bool)

/-- Lock-table read: `none` means no lock object was ever created. -/
def lockState (c : Checksum) : LockTable → Option Bool
  | [] => Option.none
  | (k, v) :: rest => if k = c then some v else lockState c rest

/-- Python `checksum in self.processing_locks`. -/
def hasLockEntry (c : Checksum) (t : LockTable) : Bool :=
  (lockState c t).isSome

/-- Python `self.processing_locks[checksum].locked()` guarded by membership:
`checksum in locks and locks[checksum].locked()`. -/
def lockHeld (c : Checksum) (t : LockTable) : Bool :=
  lockState c t = some true

/-- Write the held/free state of the lock for `c` (create the entry if absent). -/
def setLock (c : Checksum) (b : Bool) : LockTable → LockTable
  | [] => [(c, b)]
  | (k, v) :: rest => if k = c then (k, b) :: rest else (k, v) :: setLock c b rest

/-- A keyed store of raw objects (S3 bucket objects, Drive files, local disk). -/
abbrev ObjectStore := List (String × List Nat)

/-- Object-store membership. -/
def hasObject (k : String) : ObjectStore → Bool
  | [] => false
  | (k2, _) :: rest => if k2 = k then true else hasObject k rest

/-- Object-store write (overwrite in place, append if new). -/
def putObject (k : String) (body : List Nat) : ObjectStore → ObjectStore
  | [] => [(k, body)]
  | (k2, v) :: rest => if k2 = k then (k2, body) :: rest else (k2, v) :: putObject k body rest

/-- Object-store delete (no error when absent, like S3 delete_object / os.remove guard). -/
def dropObject (k : String) : ObjectStore → ObjectStore
  | [] => []
  | (k2, v) :: rest => if k2 = k then rest else (k2, v) :: dropObject k rest

/-- The remote authoritative metadata document at its well-known location. -/
inductive RemoteDoc where
  | missing
  | corrupt
  | doc (files : CacheFiles)
deriving DecidableEq, Repr

/-- Errors surfaced by the modelled operations. -/
inductive Err where
  | notFound (checksum : String)
  | corruptMetadata
  | derivation (msg : String)
  | noOcrText
  | blockedForever
deriving DecidableEq, Repr

/-- Externally observable events of one call, in program order. -/
inductive Event where
  | cacheWrite
  | remoteMetaWrite
  | uploadObject (key : String)
  | deleteObject (key : String)
  | fsWriteFile (path : String)
  | fsRemove (path : String)
  | scheduleTask (checksum : String)
  | sleepGrace
deriving DecidableEq, Repr

deriving instance DecidableEq for Except

/-- Result of one modelled call: outcome, post state, ordered event trace. -/
structure Res (σ : Type) (α : Type) where
  result : Except Err α
  state : σ
  events : List Event
deriving DecidableEq, Repr

/-- The state owned by the base StorageInterface (modules/storage.py):
the metadata cache and the per-checksum processing-lock table. -/
structure IState where
  file_cache : CacheFiles
  processing_locks : LockTable
deriving DecidableEq, Repr

namespace StorageInterface

/-- get_file_data (modules/storage.py lines 109-120) at the default
`ensure_process="none"`: a pure cache lookup that raises ValueError when the
checksum is unknown.  The `ensure_process` ≠ "none" branch delegates to
`ensure_ocr` and is modelled separately. -/
def get_file_data (checksum : Checksum) (s : IState) : Except Err FileData :=
  match getEntry checksum s.file_cache with
  | Option.none => .error (.notFound checksum)
  | some fd => .ok fd

/-- file_exists (modules/storage.py lines 122-125): pure cache membership. -/
def file_exists (checksum : Checksum) (s : IState) : Bool :=
  hasEntry checksum s.file_cache

end StorageInterface

/-- Oracle for the external collaborators invoked by the derivation pipeline:
`modules.ocr.process_document`, `modules.ocr.summarize_document`, and the
byte content returned by the adapter `download_file` (every adapter returns
the stored name and mime_type alongside the downloaded bytes, so only the
bytes are abstracted). -/
structure OcrOracle where
  process_document : List Nat → String → Except String String
  summarize_document : String → Except String String
  downloadContent : Checksum → List Nat

/-- Python str.startswith, computed structurally on the character lists. -/
def strStartsWith (s pre : String) : Bool :=
  pre.toList.isPrefixOf s.toList

/-- The MIME allow-list shared by ensure_ocr (storage.py line 80) and the
upload endpoint (main.py line 85): application/pdf or any image/* type. -/
def supportedMime (mt : String) : Bool :=
  mt = "application/pdf" || strStartsWith mt "image/"

/-- The sentinel stored into both derivation fields for unsupported MIME
types (storage.py lines 83-84). -/
def ocrSentinel (mt : String) : String :=
  "Cannot perform OCR on file with MIME type \x27" ++ mt ++ "\x27"

namespace StorageInterface

/-- Lines 75-103 of modules/storage.py: the work performed while holding the
processing lock once the guard at line 73 has fired.  Resolves raw file data
(line 77-78: download when none was passed), applies the MIME allow-list
(lines 80-85), invokes OCR when `raw_ocr` is unset (lines 89-97) and the
summarizer when a summary is required and unset (lines 99-103).  A
collaborator failure propagates as an error. -/
def deriveFields (o : OcrOracle) (checksum : Checksum) (ensure_process : EnsureProcess)
    (raw_file_data : Option RawFileData) (fd0 : FileData) : Except Err FileData :=
  let rfd : RawFileData :=
    match raw_file_data with
    | Option.none => ⟨o.downloadContent checksum, fd0.name, fd0.mime_type⟩
    | some r => r
  if supportedMime rfd.mime_type then
    let step1 : Except Err FileData :=
      if fd0.raw_ocr = Option.none then
        match o.process_document rfd.content rfd.mime_type with
        | .error e => .error (.derivation e)
        | .ok t => .ok { fd0 with raw_ocr := some t }
      else .ok fd0
    match step1 with
    | .error e => .error e
    | .ok fd1 =>
      if ensure_process = .summary ∧ fd1.summary = Option.none then
        match fd1.raw_ocr with
        | Option.none => .error .noOcrText
        | some t =>
          match o.summarize_document t with
          | .error e => .error (.derivation e)
          | .ok s2 => .ok { fd1 with summary := some s2 }
      else .ok fd1
  else
    .ok { fd0 with raw_ocr := some (ocrSentinel rfd.mime_type),
                   summary := some (ocrSentinel rfd.mime_type) }

/-- ensure_ocr (modules/storage.py lines 46-107), the Derivation Pipeline.
Single-task semantics: awaiting a lock that is already held is modelled as
the outcome `Err.blockedForever`, since in a single-task run nobody else can
release it.  A collaborator error propagates with no surrounding
try/finally, so the `release()` at line 107 is skipped on that path and the
lock entry stays `true`. -/
def ensure_ocr (o : OcrOracle) (checksum : Checksum) (ensure_process : EnsureProcess)
    (raw_file_data : Option RawFileData) (s : IState) : Except Err Unit × IState :=
  if ensure_process = .ocr ∨ ensure_process = .summary then
    -- lines 60-62: existence check before any lock handling
    if hasEntry checksum s.file_cache then
      -- lines 66-67: create the lock object on first use
      let locks0 := if hasLockEntry checksum s.processing_locks then s.processing_locks
                    else s.processing_locks ++ [(checksum, false)]
      -- line 70: acquire
      if lockHeld checksum locks0 then
        (.error .blockedForever, { s with processing_locks := locks0 })
      else
        let locks1 := setLock checksum true locks0
        -- line 71: re-read the metadata while holding the lock
        match getEntry checksum s.file_cache with
        | Option.none => (.error (.notFound checksum), { s with processing_locks := locks1 })
        | some fd =>
          -- line 73: idempotence guard
          if fd.raw_ocr = Option.none ∨ (ensure_process = .summary ∧ fd.summary = Option.none) then
            match deriveFields o checksum ensure_process raw_file_data fd with
            | .error e =>
                -- the exception propagates; the release at line 107 never runs
                (.error e, { s with processing_locks := locks1 })
            | .ok fd2 =>
                -- line 105: add_file_data persists the updated entry (each
                -- adapter also synchronizes the remote metadata document)
                (.ok (), { file_cache := setEntry checksum fd2 s.file_cache,
                           processing_locks := setLock checksum false locks1 })
          else
            -- nothing to do: release immediately
            (.ok (), { s with processing_locks := setLock checksum false locks1 })
    else (.error (.notFound checksum), s)
  else (.ok (), s)

end StorageInterface

/-- Cache states for a checksum `c` reachable through derivation: the entry
is created by add_file with both derivation fields unset, and is then only
touched by derivation pipeline calls (ensure_ocr, for any checksum, with any
collaborators, level, and raw file data). -/
inductive DerivReachable (c : Checksum) : IState → Prop where
  | base (s : IState) (fd : FileData)
      (hfd : getEntry c s.file_cache = some fd)
      (hocr : fd.raw_ocr = Option.none) (hsum : fd.summary = Option.none) :
      DerivReachable c s
  | step (s : IState) (o : OcrOracle) (c2 : Checksum) (ep : EnsureProcess)
      (rfd : Option RawFileData) (h : DerivReachable c s) :
      DerivReachable c (StorageInterface.ensure_ocr o c2 ep rfd s).2

theorem getEntry_setEntry_same (c : Checksum) (fd : FileData) (l : CacheFiles) :
    getEntry c (setEntry c fd l) = some fd := by
  induction l with
  | nil => simp [setEntry, getEntry]
  | cons hd tl ih =>
    by_cases h : hd.1 = c <;> simp [setEntry, getEntry, h, ih]

theorem getEntry_setEntry_ne (c c2 : Checksum) (fd : FileData) (l : CacheFiles)
    (h : c ≠ c2) : getEntry c (setEntry c2 fd l) = getEntry c l := by
  induction l with
  | nil =>
    simp only [setEntry, getEntry]
    rw [if_neg (fun h2 => h h2.symm)]
  | cons hd tl ih =>
    by_cases h2 : hd.1 = c2 <;> by_cases h3 : hd.1 = c <;>
      simp_all [setEntry, getEntry]

/-- Every FileData written by a successful deriveFields has raw_ocr set. -/
theorem deriveFields_raw_ocr_isSome (o : OcrOracle) (c : Checksum)
    (ep : EnsureProcess) (rfd : Option RawFileData) (fd0 fd2 : FileData)
    (h : StorageInterface.deriveFields o c ep rfd fd0 = .ok fd2) :
    fd2.raw_ocr.isSome := by
  unfold StorageInterface.deriveFields at h
  by_cases hm : supportedMime (match rfd with
    | Option.none => (⟨o.downloadContent c, fd0.name, fd0.mime_type⟩ : RawFileData)
    | some r => r).mime_type
  · simp only [hm, if_pos] at h
    by_cases ho : fd0.raw_ocr = Option.none
    · simp only [ho, if_pos] at h
      cases hoc : o.process_document (match rfd with
        | Option.none => (⟨o.downloadContent c, fd0.name, fd0.mime_type⟩ : RawFileData)
        | some r => r).content (match rfd with
        | Option.none => (⟨o.downloadContent c, fd0.name, fd0.mime_type⟩ : RawFileData)
        | some r => r).mime_type with
      | error e => simp [hoc] at h
      | ok t =>
        simp only [hoc] at h
        by_cases hs : ep = EnsureProcess.summary ∧ fd0.summary = Option.none
        · simp only [hs, if_pos] at h
          cases hsum : o.summarize_document t with
          | error e => simp [hsum] at h
          | ok s2 =>
            simp [hsum] at h
            subst h
            rfl
        · simp only [if_neg hs] at h
          cases h
          rfl
    · simp only [if_neg ho] at h
      by_cases hs : ep = EnsureProcess.summary ∧ fd0.summary = Option.none
      · simp only [hs, if_pos] at h
        cases hro : fd0.raw_ocr with
        | none => exact absurd hro ho
        | some t =>
          simp only [hro] at h
          cases hsum : o.summarize_document t with
          | error e => simp [hsum] at h
          | ok s2 =>
            simp [hsum] at h
            subst h
            simp [hro]
      · simp only [if_neg hs] at h
        cases h
        cases hro : fd0.raw_ocr with
        | none => exact absurd hro ho
        | some t => simp [hro]
  · simp only [if_neg hm] at h
    cases h
    rfl

/-- ensure_ocr either leaves the cache untouched, or rewrites exactly the
entry of its checksum with a successful deriveFields output, and only when
the idempotence guard (line 73) fired. -/
theorem ensure_ocr_cache_effect (o : OcrOracle) (c2 : Checksum) (ep : EnsureProcess)
    (rfd : Option RawFileData) (s : IState) :
    (StorageInterface.ensure_ocr o c2 ep rfd s).2.file_cache = s.file_cache ∨
    (∃ fd fd2, getEntry c2 s.file_cache = some fd ∧
      (fd.raw_ocr = Option.none ∨ (ep = .summary ∧ fd.summary = Option.none)) ∧
      StorageInterface.deriveFields o c2 ep rfd fd = .ok fd2 ∧
      (StorageInterface.ensure_ocr o c2 ep rfd s).2.file_cache = setEntry c2 fd2 s.file_cache) := by
  unfold StorageInterface.ensure_ocr
  by_cases h1 : ep = EnsureProcess.ocr ∨ ep = EnsureProcess.summary
  · simp only [if_pos h1]
    by_cases h2 : hasEntry c2 s.file_cache
    · simp only [h2, if_true]
      by_cases h3 : lockHeld c2 (if hasLockEntry c2 s.processing_locks then s.processing_locks
                    else s.processing_locks ++ [(c2, false)])
      · simp only [h3, if_true]
        left; trivial
      · simp only [h3, if_false]
        cases hget : getEntry c2 s.file_cache with
        | none => left; trivial
        | some fd =>
          by_cases h4 : fd.raw_ocr = Option.none ∨ (ep = .summary ∧ fd.summary = Option.none)
          · simp only [if_pos h4]
            cases hder : StorageInterface.deriveFields o c2 ep rfd fd with
            | error e => left; trivial
            | ok fd2 =>
              right
              exact ⟨fd, fd2, rfl, h4, hder, rfl⟩
          · simp only [if_neg h4]
            left; trivial
    · simp only [h2, if_false]
      left; trivial
  · simp only [if_neg h1]
    left; trivial

/-- At every derivation-reachable state, a set summary implies a set
raw_ocr for the entry of the tracked checksum. -/
theorem derivReachable_summary_invariant (c : Checksum) (s : IState)
    (h : DerivReachable c s) :
    ∀ fd : FileData, getEntry c s.file_cache = some fd →
      fd.summary.isSome → fd.raw_ocr.isSome := by
  induction h with
  | base s0 fd0 hfd0 hocr hsum =>
    intro fd hfd hs
    rw [hfd0] at hfd
    cases hfd
    rw [hsum] at hs
    simp at hs
  | step s0 o c2 ep rfd h ih =>
    intro fd hfd hs
    rcases ensure_ocr_cache_effect o c2 ep rfd s0 with heq | ⟨fdA, fdB, hgetA, _, hder, heq⟩
    · rw [heq] at hfd
      exact ih fd hfd hs
    · rw [heq] at hfd
      by_cases hcc : c = c2
      · subst hcc
        rw [getEntry_setEntry_same] at hfd
        cases hfd
        exact deriveFields_raw_ocr_isSome o c ep rfd fdA fd hder
      · rw [getEntry_setEntry_ne c c2 fdB s0.file_cache hcc] at hfd
        exact ih fd hfd hs

/-- Once the summary of a derivation-reachable entry is set, no further
derivation pipeline call (for any checksum, collaborators, level, raw data)
changes that entry. -/
theorem ensure_ocr_preserves_completed_entry (c : Checksum) (s : IState)
    (hreach : DerivReachable c s) (fd : FileData)
    (hfd : getEntry c s.file_cache = some fd) (hs : fd.summary.isSome)
    (o : OcrOracle) (c2 : Checksum) (ep : EnsureProcess) (rfd : Option RawFileData) :
    getEntry c (StorageInterface.ensure_ocr o c2 ep rfd s).2.file_cache = some fd := by
  rcases ensure_ocr_cache_effect o c2 ep rfd s with heq | ⟨fdA, fdB, hgetA, hguard, _, heq⟩
  · rw [heq]; exact hfd
  · by_cases hcc : c = c2
    · subst hcc
      rw [hfd] at hgetA
      cases hgetA
      rcases hguard with hro | ⟨_, hsum⟩
      · have := derivReachable_summary_invariant c s hreach fd hfd hs
        rw [hro] at this
        simp at this
      · rw [hsum] at hs
        simp at hs
    · rw [heq, getEntry_setEntry_ne c c2 fdB s.file_cache hcc]
      exact hfd

/-- SearchQuery (modules/storage.py lines 30-35); datetimes as ISO strings. -/
structure SearchQuery where
  max_results : Nat := 10
  keywords : List String := []
  last_modified_since : Option String := Option.none
  last_modified_before : Option String := Option.none
  around_date : Option String := Option.none
deriving DecidableEq, Repr

/-- The list comprehension shared verbatim by the three adapters
(local.py lines 70-77, amazons3.py lines 106-113, gdrive.py lines 126-133):
one FileDataResponse per cache entry, `is_processing` true when a lock
object exists for the checksum and is currently held. -/
def listingOf (s : IState) : List FileDataResponse :=
  s.file_cache.map (fun p =>
    { checksum := p.1,
      is_processing := lockHeld p.1 s.processing_locks,
      file_data := p.2 })

/-- One `setattr(db.files[checksum], key, value)` of update_file_data.
Only valid attribute names are representable; an invalid name raises
ValueError in the source before any remote write. -/
inductive FieldUpdate where
  | set_file_reference (v : String)
  | set_name (v : String)
  | set_mime_type (v : String)
  | set_size (v : Nat)
  | set_modified_time (v : String)
  | set_raw_ocr (v : Option String)
  | set_summary (v : Option String)
deriving DecidableEq, Repr

/-- Apply one setattr to a FileData value. -/
def applyUpdate : FieldUpdate → FileData → FileData
  | .set_file_reference v, fd => { fd with file_reference := v }
  | .set_name v, fd => { fd with name := v }
  | .set_mime_type v, fd => { fd with mime_type := v }
  | .set_size v, fd => { fd with size := v }
  | .set_modified_time v, fd => { fd with modified_time := v }
  | .set_raw_ocr v, fd => { fd with raw_ocr := v }
  | .set_summary v, fd => { fd with summary := v }

/-- The `for key, value in updates.items()` loop of update_file_data. -/
def applyUpdates (us : List FieldUpdate) (fd : FileData) : FileData :=
  us.foldl (fun fd u => applyUpdate u fd) fd

/-! ### LocalStorageInterface (modules/interfaces/local.py) -/

/-- State of a LocalStorageInterface instance: the inherited cache and lock
table, the files on the local filesystem under `{storage_folder}/files`,
the metadata file `{storage_folder}/file_metadata.json`, the lazy-init
flag, and the files-folder path. -/
structure LocalState where
  core : IState
  disk : ObjectStore
  metadata_doc : RemoteDoc
  folder_initialized : Bool
  files_folder : String
deriving DecidableEq, Repr

namespace LocalStorageInterface

/-- _save_metadata (local.py lines 55-61): overwrite the metadata file with
the full serialization of the current cache. -/
def save_metadata (s : LocalState) : LocalState × List Event :=
  ({ s with metadata_doc := .doc s.core.file_cache }, [.remoteMetaWrite])

/-- _ensure_folder_structure (local.py lines 25-53), sequential semantics:
if the metadata file exists, parse it into the cache (a parse failure
raises ValueError and leaves the cache untouched); otherwise reset the
cache to empty and create the file.  The `_folder_initialized` flag is
checked at entry and set at the end, with suspension points in between and
no lock; its concurrent interleavings are modelled by `LocalInit` below. -/
def ensure_folder_structure (s : LocalState) : Except Err Unit × LocalState × List Event :=
  if s.folder_initialized then (.ok (), s, [])
  else
    match s.metadata_doc with
    | .doc files =>
        (.ok (), { s with core := { s.core with file_cache := files },
                          folder_initialized := true }, [.cacheWrite])
    | .corrupt => (.error .corruptMetadata, s, [])
    | .missing =>
        let s1 : LocalState := { s with core := { s.core with file_cache := [] } }
        let (s2, ev) := save_metadata s1
        (.ok (), { s2 with folder_initialized := true }, Event.cacheWrite :: ev)

/-- add_file_data (local.py lines 133-138): write the cache entry, then
save the full cache to the metadata file. -/
def add_file_data (checksum : Checksum) (fd : FileData) (s : LocalState) :
    LocalState × List Event :=
  let s1 : LocalState :=
    { s with core := { s.core with file_cache := setEntry checksum fd s.core.file_cache } }
  let (s2, ev) := save_metadata s1
  (s2, Event.cacheWrite :: ev)

/-- update_file_data (local.py lines 142-154): mutate the named fields of
an existing entry under the scoped cache access, then save the full cache;
unknown checksum raises before any write. -/
def update_file_data (checksum : Checksum) (updates : List FieldUpdate) (s : LocalState) :
    Res LocalState Unit :=
  match getEntry checksum s.core.file_cache with
  | Option.none => ⟨.error (.notFound checksum), s, []⟩
  | some fd =>
    let s1 : LocalState :=
      { s with core := { s.core with
          file_cache := setEntry checksum (applyUpdates updates fd) s.core.file_cache } }
    let (s2, ev) := save_metadata s1
    ⟨.ok (), s2, Event.cacheWrite :: ev⟩

/-- add_file (local.py lines 79-131).  `hash` abstracts
`hashlib.sha3_256(...).hexdigest()`, `now` the current-time ISO string of
line 104-106.  The scheduled background task only produces a
`scheduleTask` event; it runs later. -/
def add_file (hash : List Nat → Checksum) (now : String)
    (raw : RawFileData) (ensure_process : EnsureProcess) (s : LocalState) :
    Res LocalState FileDataResponse :=
  match ensure_folder_structure s with
  | (.error e, s1, ev) => ⟨.error e, s1, ev⟩
  | (.ok _, s1, ev0) =>
    let checksum := hash raw.content
    let (fd, s2, ev1) :=
      match getEntry checksum s1.core.file_cache with
      | Option.none =>
        let path := s1.files_folder ++ "/" ++ checksum ++ "_" ++ raw.name
        let sA : LocalState := { s1 with disk := putObject path raw.content s1.disk }
        let fd : FileData :=
          { file_reference := path, name := raw.name, mime_type := raw.mime_type,
            size := raw.content.length, modified_time := now,
            raw_ocr := Option.none, summary := Option.none }
        let (sB, evB) := add_file_data checksum fd sA
        (fd, sB, Event.fsWriteFile path :: evB)
      | some fd => (fd, s1, [])
    let evSched :=
      if ensure_process ≠ EnsureProcess.none ∧ ¬ hasLockEntry checksum s2.core.processing_locks
      then [Event.scheduleTask checksum] else []
    ⟨.ok { checksum := checksum,
           is_processing := lockHeld checksum s2.core.processing_locks,
           file_data := fd },
     s2, ev0 ++ ev1 ++ evSched ++ [Event.sleepGrace]⟩

/-- delete_file (local.py lines 156-170): look up the entry (ValueError if
unknown), remove the physical file if present, delete the cache entry,
save the full cache to the metadata file. -/
def delete_file (checksum : Checksum) (s : LocalState) : Res LocalState Unit :=
  match StorageInterface.get_file_data checksum s.core with
  | .error e => ⟨.error e, s, []⟩
  | .ok fd =>
    let (s1, ev1) :=
      if hasObject fd.file_reference s.disk
      then ({ s with disk := dropObject fd.file_reference s.disk },
            [Event.fsRemove fd.file_reference])
      else (s, ([] : List Event))
    let s2 : LocalState :=
      { s1 with core := { s1.core with file_cache := delEntry checksum s1.core.file_cache } }
    let (s3, ev3) := save_metadata s2
    ⟨.ok (), s3, ev1 ++ [Event.cacheWrite] ++ ev3⟩

/-- search_files (local.py lines 65-77): bootstrap if needed, then list the
cache; the query is never consulted. -/
def search_files (_query : SearchQuery) (s : LocalState) :
    Res LocalState (List FileDataResponse) :=
  match ensure_folder_structure s with
  | (.error e, s1, ev) => ⟨.error e, s1, ev⟩
  | (.ok _, s1, ev) => ⟨.ok (listingOf s1.core), s1, ev⟩

end LocalStorageInterface

/-! ### AmazonS3Interface (modules/interfaces/amazons3.py) -/

/-- State of an AmazonS3Interface instance: the inherited cache and locks,
the bucket file objects, the metadata object at
`{base}/file_metadata.json`, and the lazy-init flag. -/
structure S3State where
  core : IState
  objects : ObjectStore
  metadata_object : RemoteDoc
  layout_initialized : Bool
deriving DecidableEq, Repr

namespace AmazonS3Interface

/-- The composite object key `{base}/files/{checksum}-{name}` with the
deployed base "LLMDocumentStore" (main.py line 49). -/
def filesKey (checksum name : String) : String :=
  "LLMDocumentStore/files/" ++ checksum ++ "-" ++ name

/-- The repeated metadata-push block (amazons3.py lines 196-206, 222-232,
295-304): serialize the whole cache and put it at the metadata key. -/
def push_metadata (s : S3State) : S3State × List Event :=
  ({ s with metadata_object := .doc s.core.file_cache }, [.remoteMetaWrite])

/-- _ensure_layout (amazons3.py lines 51-94), sequential semantics: fetch
the metadata object and load it into the cache; NoSuchKey creates the empty
document remotely (line 83) and resets the cache (line 89); a parse failure
propagates and leaves the cache untouched.  The `_layout_lock`
double-checked locking is modelled by `S3Init` below. -/
def ensure_layout (s : S3State) : Except Err Unit × S3State × List Event :=
  if s.layout_initialized then (.ok (), s, [])
  else
    match s.metadata_object with
    | .doc files =>
        (.ok (), { s with core := { s.core with file_cache := files },
                          layout_initialized := true }, [.cacheWrite])
    | .corrupt => (.error .corruptMetadata, s, [])
    | .missing =>
        (.ok (), { s with metadata_object := .doc [],
                          core := { s.core with file_cache := [] },
                          layout_initialized := true },
         [.remoteMetaWrite, .cacheWrite])

/-- add_file_data (amazons3.py lines 186-206): ensure layout, write the
cache entry, push the serialized cache to S3. -/
def add_file_data (checksum : Checksum) (fd : FileData) (s : S3State) :
    Res S3State Unit :=
  match ensure_layout s with
  | (.error e, s1, ev) => ⟨.error e, s1, ev⟩
  | (.ok _, s1, ev0) =>
    let s2 : S3State :=
      { s1 with core := { s1.core with file_cache := setEntry checksum fd s1.core.file_cache } }
    let (s3, ev1) := push_metadata s2
    ⟨.ok (), s3, ev0 ++ [Event.cacheWrite] ++ ev1⟩

/-- update_file_data (amazons3.py lines 209-232). -/
def update_file_data (checksum : Checksum) (updates : List FieldUpdate) (s : S3State) :
    Res S3State Unit :=
  match ensure_layout s with
  | (.error e, s1, ev) => ⟨.error e, s1, ev⟩
  | (.ok _, s1, ev0) =>
    match getEntry checksum s1.core.file_cache with
    | Option.none => ⟨.error (.notFound checksum), s1, ev0⟩
    | some fd =>
      let s2 : S3State :=
        { s1 with core := { s1.core with
            file_cache := setEntry checksum (applyUpdates updates fd) s1.core.file_cache } }
      let (s3, ev1) := push_metadata s2
      ⟨.ok (), s3, ev0 ++ [Event.cacheWrite] ++ ev1⟩

/-- add_file (amazons3.py lines 115-184).  `hash` abstracts the SHA3-256
digest; `modifiedIso` the ISO timestamp derived from head_object (lines
141-152); head_object reports the stored content length. -/
def add_file (hash : List Nat → Checksum) (modifiedIso : String)
    (raw : RawFileData) (ensure_process : EnsureProcess) (s : S3State) :
    Res S3State FileDataResponse :=
  match ensure_layout s with
  | (.error e, s1, ev) => ⟨.error e, s1, ev⟩
  | (.ok _, s1, ev0) =>
    let checksum := hash raw.content
    match
      (match getEntry checksum s1.core.file_cache with
      | Option.none =>
        let key := filesKey checksum raw.name
        let sA : S3State := { s1 with objects := putObject key raw.content s1.objects }
        let fd : FileData :=
          { file_reference := key, name := raw.name, mime_type := raw.mime_type,
            size := raw.content.length, modified_time := modifiedIso,
            raw_ocr := Option.none, summary := Option.none }
        match add_file_data checksum fd sA with
        | ⟨.error e, sB, evB⟩ =>
          (⟨.error e, sB, Event.uploadObject key :: evB⟩ : Res S3State FileData)
        | ⟨.ok _, sB, evB⟩ =>
          (⟨.ok fd, sB, Event.uploadObject key :: evB⟩ : Res S3State FileData)
      | some fd => (⟨.ok fd, s1, []⟩ : Res S3State FileData))
    with
    | ⟨.error e, s2, ev1⟩ => ⟨.error e, s2, ev0 ++ ev1⟩
    | ⟨.ok fd, s2, ev1⟩ =>
      let evSched :=
        if ensure_process ≠ EnsureProcess.none ∧ ¬ hasLockEntry checksum s2.core.processing_locks
        then [Event.scheduleTask checksum] else []
      ⟨.ok { checksum := checksum,
             is_processing := lockHeld checksum s2.core.processing_locks,
             file_data := fd },
       s2, ev0 ++ ev1 ++ evSched ++ [Event.sleepGrace]⟩

/-- delete_file (amazons3.py lines 277-304): ensure layout, look up the
entry, delete the S3 object, delete the cache entry, push the serialized
cache. -/
def delete_file (checksum : Checksum) (s : S3State) : Res S3State Unit :=
  match ensure_layout s with
  | (.error e, s1, ev) => ⟨.error e, s1, ev⟩
  | (.ok _, s1, ev0) =>
    match StorageInterface.get_file_data checksum s1.core with
    | .error e => ⟨.error e, s1, ev0⟩
    | .ok fd =>
      let s2 : S3State := { s1 with objects := dropObject fd.file_reference s1.objects }
      let s3 : S3State :=
        { s2 with core := { s2.core with file_cache := delEntry checksum s2.core.file_cache } }
      let (s4, ev4) := push_metadata s3
      ⟨.ok (), s4,
        ev0 ++ [Event.deleteObject fd.file_reference, Event.cacheWrite] ++ ev4⟩

/-- search_files (amazons3.py lines 98-113): bootstrap if needed, then list
the cache; the SearchQuery filters are ignored (source comment line 102). -/
def search_files (_query : SearchQuery) (s : S3State) :
    Res S3State (List FileDataResponse) :=
  match ensure_layout s with
  | (.error e, s1, ev) => ⟨.error e, s1, ev⟩
  | (.ok _, s1, ev) => ⟨.ok (listingOf s1.core), s1, ev⟩

end AmazonS3Interface

/-! ### GoogleDriveInterface (modules/interfaces/gdrive.py) -/

/-- State of a GoogleDriveInterface instance: the inherited cache and
locks, the uploaded Drive files keyed by opaque id, the metadata file under
the well-known folder, the existence of the main folder and files folder,
the lazy-init flag, and a counter generating fresh Drive ids. -/
structure GDriveState where
  core : IState
  drive_files : ObjectStore
  metadata_doc : RemoteDoc
  main_folder : Bool
  files_folder : Bool
  folder_initialized : Bool
  next_id : Nat
deriving DecidableEq, Repr

namespace GoogleDriveInterface

/-- _ensure_folder_structure (gdrive.py lines 39-106): existence-then-create
for the main folder, then the metadata file (download and parse when
present — a parse failure propagates after the main-folder step and before
any cache write — create with body restricted to an empty files mapping
when absent), then the files folder. -/
def ensure_folder_structure (s : GDriveState) : Except Err Unit × GDriveState × List Event :=
  let s1 : GDriveState := { s with main_folder := true }
  match s1.metadata_doc with
  | .corrupt => (.error .corruptMetadata, s1, [])
  | .doc files =>
      (.ok (), { s1 with core := { s1.core with file_cache := files },
                         files_folder := true }, [.cacheWrite])
  | .missing =>
      (.ok (), { s1 with metadata_doc := .doc [],
                         core := { s1.core with file_cache := [] },
                         files_folder := true },
       [.remoteMetaWrite, .cacheWrite])

/-- get_drive_service (gdrive.py lines 108-118): credential refresh is
external; the folder bootstrap runs when the unguarded
`_folder_initialized` flag is unset, and the flag is set afterwards.  Its
concurrent interleavings follow `LocalInit` below (same flag pattern). -/
def get_drive_service (s : GDriveState) : Except Err Unit × GDriveState × List Event :=
  if s.folder_initialized then (.ok (), s, [])
  else
    match ensure_folder_structure s with
    | (.error e, s1, ev) => (.error e, s1, ev)
    | (.ok _, s1, ev) => (.ok (), { s1 with folder_initialized := true }, ev)

/-- add_file_data (gdrive.py lines 187-202): get the service (bootstrap if
needed), write the cache entry, upload the serialized cache over the
metadata file. -/
def add_file_data (checksum : Checksum) (fd : FileData) (s : GDriveState) :
    Res GDriveState Unit :=
  match get_drive_service s with
  | (.error e, s1, ev) => ⟨.error e, s1, ev⟩
  | (.ok _, s1, ev0) =>
    let s2 : GDriveState :=
      { s1 with core := { s1.core with file_cache := setEntry checksum fd s1.core.file_cache } }
    ⟨.ok (), { s2 with metadata_doc := .doc s2.core.file_cache },
      ev0 ++ [Event.cacheWrite, Event.remoteMetaWrite]⟩

/-- update_file_data (gdrive.py lines 206-226).  Note the source order:
the cache is mutated and snapshotted first, get_drive_service runs after,
and the snapshot is what is uploaded. -/
def update_file_data (checksum : Checksum) (updates : List FieldUpdate) (s : GDriveState) :
    Res GDriveState Unit :=
  match getEntry checksum s.core.file_cache with
  | Option.none => ⟨.error (.notFound checksum), s, []⟩
  | some fd =>
    let s1 : GDriveState :=
      { s with core := { s.core with
          file_cache := setEntry checksum (applyUpdates updates fd) s.core.file_cache } }
    let snapshot := s1.core.file_cache
    match get_drive_service s1 with
    | (.error e, s2, ev) => ⟨.error e, s2, Event.cacheWrite :: ev⟩
    | (.ok _, s2, ev) =>
      ⟨.ok (), { s2 with metadata_doc := .doc snapshot },
        Event.cacheWrite :: ev ++ [Event.remoteMetaWrite]⟩

/-- add_file (gdrive.py lines 135-185).  `hash` abstracts the SHA3-256
digest; `modifiedIso` the Drive-reported modifiedTime after the Z → +00:00
rewrite; uploads get a fresh opaque id, and Drive reports the stored size. -/
def add_file (hash : List Nat → Checksum) (modifiedIso : String)
    (raw : RawFileData) (ensure_process : EnsureProcess) (s : GDriveState) :
    Res GDriveState FileDataResponse :=
  match get_drive_service s with
  | (.error e, s1, ev) => ⟨.error e, s1, ev⟩
  | (.ok _, s1, ev0) =>
    let checksum := hash raw.content
    match
      (match getEntry checksum s1.core.file_cache with
      | Option.none =>
        let id := "gdrive-" ++ toString s1.next_id
        let sA : GDriveState :=
          { s1 with drive_files := putObject id raw.content s1.drive_files,
                    next_id := s1.next_id + 1 }
        let fd : FileData :=
          { file_reference := id, name := raw.name, mime_type := raw.mime_type,
            size := raw.content.length, modified_time := modifiedIso,
            raw_ocr := Option.none, summary := Option.none }
        match add_file_data checksum fd sA with
        | ⟨.error e, sB, evB⟩ =>
          (⟨.error e, sB, Event.uploadObject id :: evB⟩ : Res GDriveState FileData)
        | ⟨.ok _, sB, evB⟩ =>
          (⟨.ok fd, sB, Event.uploadObject id :: evB⟩ : Res GDriveState FileData)
      | some fd => (⟨.ok fd, s1, []⟩ : Res GDriveState FileData))
    with
    | ⟨.error e, s2, ev1⟩ => ⟨.error e, s2, ev0 ++ ev1⟩
    | ⟨.ok fd, s2, ev1⟩ =>
      let evSched :=
        if ensure_process ≠ EnsureProcess.none ∧ ¬ hasLockEntry checksum s2.core.processing_locks
        then [Event.scheduleTask checksum] else []
      ⟨.ok { checksum := checksum,
             is_processing := lockHeld checksum s2.core.processing_locks,
             file_data := fd },
       s2, ev0 ++ ev1 ++ evSched ++ [Event.sleepGrace]⟩

/-- delete_file (gdrive.py lines 228-231): the body fetches the metadata of
the checksum (raising ValueError when unknown) and then does nothing — the
comment announces deletion from Drive and both caches, but no deletion,
cache removal, or metadata synchronization is performed. -/
def delete_file (checksum : Checksum) (s : GDriveState) : Res GDriveState Unit :=
  match StorageInterface.get_file_data checksum s.core with
  | .error e => ⟨.error e, s, []⟩
  | .ok _ => ⟨.ok (), s, []⟩

/-- search_files (gdrive.py lines 122-133): get the service (bootstrap if
needed), then list the cache; the query is never consulted. -/
def search_files (_query : SearchQuery) (s : GDriveState) :
    Res GDriveState (List FileDataResponse) :=
  match get_drive_service s with
  | (.error e, s1, ev) => ⟨.error e, s1, ev⟩
  | (.ok _, s1, ev) => ⟨.ok (listingOf s1.core), s1, ev⟩

end GoogleDriveInterface

/-! ### HTTP upload endpoint (main.py lines 61-108) -/

/-- The multipart upload as FastAPI presents it: `file.content_type` and
`file.size` are optional, `file.filename` may be absent. -/
structure UploadFileInput where
  content : List Nat
  filename : Option String
  content_type : Option String
  size : Option Nat
deriving DecidableEq, Repr

/-- An exception raised inside the endpoint try body: either an explicit
fastapi.HTTPException — which subclasses Exception — or any other
exception (e.g. from the interface add_file call). -/
inductive UploadExc where
  | httpExc (status : Nat) (detail : String)
  | exc (msg : String)
deriving DecidableEq, Repr

/-- Python str() of the exception, as interpolated into the wrapper detail. -/
def UploadExc.text : UploadExc → String
  | .httpExc status detail => toString status ++ ": " ++ detail
  | .exc msg => msg

/-- Response of an endpoint call: 200 with a body, or an HTTPException. -/
inductive HttpOutcome (α : Type) where
  | ok (body : α)
  | httpError (status : Nat) (detail : String)
deriving DecidableEq, Repr

/-- HTTP status code of the outcome. -/
def HttpOutcome.status {α : Type} : HttpOutcome α → Nat
  | .ok _ => 200
  | .httpError st _ => st

/-- The try body of upload_file (main.py lines 72-105): read the bytes,
default the name, validate content-type presence, size presence (`not
file.size` is also true for size 0), the 5 MiB bound, and the MIME
allow-list, each failure raising HTTPException(400); then call the
interface add_file (abstracted as a function argument). -/
def upload_file_inner (addFile : RawFileData → EnsureProcess → Except String FileDataResponse)
    (file : UploadFileInput) (ensure_process : EnsureProcess) :
    Except UploadExc FileDataResponse :=
  let file_name := file.filename.getD "uploaded_file"
  match file.content_type with
  | Option.none => .error (.httpExc 400 "File content type is missing.")
  | some ct =>
    if file.size = Option.none ∨ file.size = some 0 then
      .error (.httpExc 400 "File size is missing.")
    else if 5 * 1024 * 1024 < file.size.getD 0 then
      .error (.httpExc 400 "File too large. Maximum allowed size is 5MB.")
    else if ¬ supportedMime ct then
      .error (.httpExc 400 ("Invalid file type: " ++ ct ++
        ". Only PDF and common image types (JPEG, PNG, GIF) are allowed."))
    else
      match addFile ⟨file.content, file_name, ct⟩ ensure_process with
      | .ok r => .ok r
      | .error e => .error (.exc e)

/-- upload_file (main.py lines 61-108): the `except Exception` handler at
line 107 also catches the HTTPException(400) raises from the body above,
and rewraps every exception as HTTPException(500, "File upload failed: ..."). -/
def upload_file (addFile : RawFileData → EnsureProcess → Except String FileDataResponse)
    (file : UploadFileInput) (ensure_process : EnsureProcess) :
    HttpOutcome FileDataResponse :=
  match upload_file_inner addFile file ensure_process with
  | .ok r => .ok r
  | .error e => .httpError 500 ("File upload failed: " ++ e.text)

/-! ### Concurrent first calls to the lazy initialization

Cooperative-concurrency model of two request handlers entering the lazy
bootstrap at the same time.  A task advances through atomic segments
separated by the suspension points of the source (`await` on filesystem or
network calls, lock acquisition); a schedule is the list of which task runs
its next segment. -/

/-- Program counter of one task in LocalStorageInterface._ensure_folder_structure
(GoogleDriveInterface.get_drive_service follows the same unguarded-flag
pattern): `check` is the flag test at entry (local.py line 27) after which
the task suspends on the awaited makedirs; `body` is the load-or-create
work (lines 31-51); `setFlag` is `self._folder_initialized = True`
(line 53). -/
inductive LIPc where
  | check
  | body
  | setFlag
  | finished
deriving DecidableEq, Repr

/-- Two tasks concurrently in _ensure_folder_structure: program counters,
the shared `_folder_initialized` flag, and whether each task has executed
the initialization body. -/
structure LIState where
  pc1 : LIPc
  pc2 : LIPc
  flag : Bool
  ran1 : Bool
  ran2 : Bool
deriving DecidableEq, Repr

/-- One atomic segment of one local-bootstrap task:
(new pc, new flag, whether the body ran in this segment). -/
def liTaskStep (pc : LIPc) (flag : Bool) : LIPc × Bool × Bool :=
  match pc with
  | .check => if flag then (.finished, flag, false) else (.body, flag, false)
  | .body => (.setFlag, flag, true)
  | .setFlag => (.finished, true, false)
  | .finished => (.finished, flag, false)

/-- Run one segment of the chosen task (`true` = task 1). -/
def liStep (s : LIState) (which : Bool) : LIState :=
  if which then
    let r := liTaskStep s.pc1 s.flag
    { s with pc1 := r.1, flag := r.2.1, ran1 := s.ran1 || r.2.2 }
  else
    let r := liTaskStep s.pc2 s.flag
    { s with pc2 := r.1, flag := r.2.1, ran2 := s.ran2 || r.2.2 }

/-- Both tasks at entry, flag unset, body never run. -/
def liInit : LIState := ⟨.check, .check, false, false, false⟩

/-- Execute a schedule of interleaved segments from the initial state. -/
def liRun (sched : List Bool) : LIState := sched.foldl liStep liInit

/-- Program counter of one task in AmazonS3Interface._ensure_layout:
flag test (amazons3.py line 55), `async with self._layout_lock`
acquisition (line 58), the double check (line 59), the body (lines 62-92),
`self._layout_initialized = True` (line 94), and the lock release on
leaving the async-with block. -/
inductive S3Pc where
  | check
  | acquire
  | check2
  | body
  | setFlagPc
  | release
  | finished
deriving DecidableEq, Repr

/-- Whether a task at this pc is inside the async-with block (holds the lock). -/
def S3Pc.inLock : S3Pc → Bool
  | .check2 => true
  | .body => true
  | .setFlagPc => true
  | .release => true
  | _ => false

/-- Two tasks concurrently in _ensure_layout: program counters, the shared
`_layout_initialized` flag, the `_layout_lock` state, and whether each task
has executed the initialization body. -/
structure S3IState where
  pc1 : S3Pc
  pc2 : S3Pc
  flag : Bool
  lock : Bool
  ran1 : Bool
  ran2 : Bool
deriving DecidableEq, Repr

/-- One atomic segment of one S3-bootstrap task:
(new pc, new flag, new lock, whether the body ran in this segment).
A task at `acquire` facing a held lock stays blocked there. -/
def s3TaskStep (pc : S3Pc) (flag lock : Bool) : S3Pc × Bool × Bool × Bool :=
  match pc with
  | .check => if flag then (.finished, flag, lock, false) else (.acquire, flag, lock, false)
  | .acquire => if lock then (.acquire, flag, lock, false) else (.check2, flag, true, false)
  | .check2 => if flag then (.release, flag, lock, false) else (.body, flag, lock, false)
  | .body => (.setFlagPc, flag, lock, true)
  | .setFlagPc => (.release, true, lock, false)
  | .release => (.finished, flag, false, false)
  | .finished => (.finished, flag, lock, false)

/-- Run one segment of the chosen task (`true` = task 1). -/
def s3Step (s : S3IState) (which : Bool) : S3IState :=
  if which then
    let r := s3TaskStep s.pc1 s.flag s.lock
    { s with pc1 := r.1, flag := r.2.1, lock := r.2.2.1, ran1 := s.ran1 || r.2.2.2 }
  else
    let r := s3TaskStep s.pc2 s.flag s.lock
    { s with pc2 := r.1, flag := r.2.1, lock := r.2.2.1, ran2 := s.ran2 || r.2.2.2 }

/-- Both tasks at entry, flag unset, lock free, body never run. -/
def s3Init : S3IState := ⟨.check, .check, false, false, false, false⟩

/-- Execute a schedule of interleaved segments from the initial state. -/
def s3Run (sched : List Bool) : S3IState := sched.foldl s3Step s3Init

/-- Inductive invariant of the double-checked-locking bootstrap: the bodies
are mutually exclusive via the lock, a task about to run the body has seen
the flag unset under the lock, and a completed body implies the flag is (or
is about to be) set. -/
def s3Inv (s : S3IState) : Bool :=
  (!(s.ran1 && s.ran2)) &&
  (s.lock == (s.pc1.inLock || s.pc2.inLock)) &&
  (!(s.pc1.inLock && s.pc2.inLock)) &&
  (!(s.pc1 == S3Pc.body) || (!s.flag && !s.ran2)) &&
  (!(s.pc2 == S3Pc.body) || (!s.flag && !s.ran1)) &&
  (!s.ran1 || (s.flag || s.pc1 == S3Pc.setFlagPc)) &&
  (!s.ran2 || (s.flag || s.pc2 == S3Pc.setFlagPc))

set_option maxHeartbeats 4000000 in
theorem s3Inv_step : ∀ (s : S3IState) (b : Bool), s3Inv s = true → s3Inv (s3Step s b) = true := by
  intro s b h
  rcases s with ⟨pc1, pc2, flag, lock, r1, r2⟩
  revert h
  cases b <;> cases pc1 <;> cases pc2 <;> cases flag <;> cases lock <;>
    cases r1 <;> cases r2 <;> decide

theorem s3Inv_foldl (sched : List Bool) :
    ∀ s : S3IState, s3Inv s = true → s3Inv (sched.foldl s3Step s) = true := by
  induction sched with
  | nil => intro s h; exact h
  | cons b rest ih =>
    intro s h
    exact ih (s3Step s b) (s3Inv_step s b h)

theorem s3Inv_run (sched : List Bool) : s3Inv (s3Run sched) = true := by
  have hinit : s3Inv s3Init = true := by decide
  exact s3Inv_foldl sched s3Init hinit

/-! ### Claim C1 -/

/-- Sample cache entry used by the C1 evaluation. -/
def c1fd : FileData :=
  { file_reference := "gdrive-0", name := "a.pdf", mime_type := "application/pdf",
    size := 3, modified_time := "2024-01-01T00:00:00+00:00",
    raw_ocr := Option.none, summary := Option.none }

/-- A fully bootstrapped GoogleDrive adapter state holding checksum "c". -/
def c1State : GDriveState :=
  { core := { file_cache := [("c", c1fd)], processing_locks := [] },
    drive_files := [("gdrive-0", [0, 1, 2])],
    metadata_doc := .doc [("c", c1fd)],
    main_folder := true, files_folder := true, folder_initialized := true,
    next_id := 1 }

/-- C1: the claim states that for every backend adapter, delete_file on a
cached checksum removes the physical object, removes the cache entry (so
file_exists turns false), synchronizes the remote metadata document, and a
later get_file_data fails with NotFound.  The GoogleDrive adapter (gdrive.py
lines 228-231) falsifies it: its delete_file body is an unfinished stub
whose comment announces the deletion but which returns success with the
Drive object, the cache entry and the remote metadata document all
untouched, so file_exists stays true and get_file_data still succeeds
afterwards.  (The NotFound-on-unknown-checksum part does hold: the stub
still raises through get_file_data.) -/
theorem C1_gdrive_delete_file_is_a_stub :
    (GoogleDriveInterface.delete_file "c" c1State).result = .ok () ∧
    (GoogleDriveInterface.delete_file "c" c1State).state = c1State ∧
    (GoogleDriveInterface.delete_file "c" c1State).events = [] ∧
    StorageInterface.file_exists "c" (GoogleDriveInterface.delete_file "c" c1State).state.core = true ∧
    StorageInterface.get_file_data "c" (GoogleDriveInterface.delete_file "c" c1State).state.core = .ok c1fd ∧
    hasObject "gdrive-0" (GoogleDriveInterface.delete_file "c" c1State).state.drive_files = true :=
  ⟨rfl, rfl, rfl, rfl, rfl, rfl⟩

/-! ### Claim C2 -/

/-- Collaborators whose OCR engine fails. -/
def c2Oracle : OcrOracle :=
  { process_document := fun _ _ => .error "OCR engine failure",
    summarize_document := fun t => .ok t,
    downloadContent := fun _ => [0, 1, 2] }

/-- A cache holding a PDF entry with both derivation fields unset and no
lock object yet. -/
def c2State : IState :=
  { file_cache := [("c",
      { file_reference := "ref-c", name := "a.pdf", mime_type := "application/pdf",
        size := 3, modified_time := "2024-01-01T00:00:00+00:00",
        raw_ocr := Option.none, summary := Option.none })],
    processing_locks := [] }

/-- C2: the claim states that when a collaborator call fails inside the
pipeline, the error propagates AND the processing lock is released.  The
error does propagate, but ensure_ocr (storage.py lines 46-107) has no
try/finally, so the `release()` at line 107 is skipped on the exception
path: after a failing OCR call the lock for the checksum remains acquired,
wedging the checksum in the running state. -/
theorem C2_collaborator_failure_leaves_lock_held :
    (StorageInterface.ensure_ocr c2Oracle "c" .ocr Option.none c2State).1 =
      .error (.derivation "OCR engine failure") ∧
    lockState "c"
      (StorageInterface.ensure_ocr c2Oracle "c" .ocr Option.none c2State).2.processing_locks
      = some true :=
  ⟨rfl, rfl⟩

/-! ### Claim C3 -/

/-- C3: the claim states that an upload with missing content-type or size,
oversize payload, or unsupported MIME type is answered with status 400 —
in particular a 10-byte text/plain payload.  The validation does construct
HTTPException(400, ...), but those raises sit inside the try whose
`except Exception` handler (main.py line 107) catches HTTPException too and
rewraps every exception, so the endpoint actually answers 500 with the 400
message embedded in the detail text. -/
theorem C3_upload_validation_rejections_become_500 :
    upload_file (fun _ _ => .error "add_file never reached")
      { content := [0, 1, 2, 3, 4, 5, 6, 7, 8, 9], filename := some "note.txt",
        content_type := some "text/plain", size := some 10 } .none
      = .httpError 500 ("File upload failed: 400: Invalid file type: text/plain. Only PDF and common image types (JPEG, PNG, GIF) are allowed.") ∧
    (upload_file (fun _ _ => .error "add_file never reached")
      { content := [0, 1, 2, 3, 4, 5, 6, 7, 8, 9], filename := some "note.txt",
        content_type := some "text/plain", size := some 10 } .none).status ≠ 400 :=
  ⟨rfl, by decide⟩

/-! ### Claim C4 -/

/-- Sample cache entry used by the C4 evaluation (local adapter). -/
def c4fdL : FileData :=
  { file_reference := "root/files/c_a.pdf", name := "a.pdf",
    mime_type := "application/pdf", size := 3,
    modified_time := "2024-01-01T00:00:00+00:00",
    raw_ocr := Option.none, summary := Option.none }

/-- A fully bootstrapped local adapter state holding checksum "c". -/
def c4LocalState : LocalState :=
  { core := { file_cache := [("c", c4fdL)], processing_locks := [] },
    disk := [("root/files/c_a.pdf", [0, 1, 2])],
    metadata_doc := .doc [("c", c4fdL)], folder_initialized := true,
    files_folder := "root/files" }

/-- Sample cache entry used by the C4 evaluation (Drive adapter). -/
def c4fdG : FileData :=
  { file_reference := "gdrive-7", name := "b.pdf", mime_type := "application/pdf",
    size := 3, modified_time := "2024-01-01T00:00:00+00:00",
    raw_ocr := Option.none, summary := Option.none }

/-- A fully bootstrapped GoogleDrive adapter state holding checksum "c". -/
def c4GState : GDriveState :=
  { core := { file_cache := [("c", c4fdG)], processing_locks := [] },
    drive_files := [("gdrive-7", [0, 1, 2])],
    metadata_doc := .doc [("c", c4fdG)],
    main_folder := true, files_folder := true, folder_initialized := true,
    next_id := 8 }

/-- C4: the claim states that after every successful mutating operation on
every adapter (add_file_data, update_file_data, delete_file) the remote
metadata document equals the full serialization of the cache, the remote
write coming after the local mutation and before the return.  The local
adapter delete_file does exactly that (the trace is fsRemove, cacheWrite,
then remoteMetaWrite, and the final document equals the final cache), but
the GoogleDrive delete_file (gdrive.py lines 228-231) returns success while
performing NO cache mutation and NO remote metadata write at all, so the
claimed remote write does not exist for that operation. -/
theorem C4_gdrive_delete_skips_cache_and_remote_sync :
    (LocalStorageInterface.delete_file "c" c4LocalState).result = .ok () ∧
    (LocalStorageInterface.delete_file "c" c4LocalState).events =
      [Event.fsRemove "root/files/c_a.pdf", Event.cacheWrite, Event.remoteMetaWrite] ∧
    (LocalStorageInterface.delete_file "c" c4LocalState).state.metadata_doc =
      .doc (LocalStorageInterface.delete_file "c" c4LocalState).state.core.file_cache ∧
    (GoogleDriveInterface.delete_file "c" c4GState).result = .ok () ∧
    (GoogleDriveInterface.delete_file "c" c4GState).events = [] ∧
    hasEntry "c" (GoogleDriveInterface.delete_file "c" c4GState).state.core.file_cache = true ∧
    (GoogleDriveInterface.delete_file "c" c4GState).state.metadata_doc = .doc [("c", c4fdG)] :=
  ⟨rfl, rfl, rfl, rfl, rfl, rfl, rfl⟩

/-! ### Claim C5 -/

/-- Physical-object uploads: an S3/Drive object upload or a local file write. -/
def isUploadEvent : Event → Bool
  | .uploadObject _ => true
  | .fsWriteFile _ => true
  | _ => false

/-- Number of physical uploads in a trace. -/
def countUploads : List Event → Nat
  | [] => 0
  | e :: rest => (if isUploadEvent e then 1 else 0) + countUploads rest

/-- Number of cache entries carrying a given checksum. -/
def countKey (c : Checksum) : CacheFiles → Nat
  | [] => 0
  | (k, _) :: rest => (if k = c then 1 else 0) + countKey c rest

theorem countKey_of_absent (c : Checksum) (l : CacheFiles)
    (h : getEntry c l = Option.none) : countKey c l = 0 := by
  induction l with
  | nil => rfl
  | cons hd tl ih =>
    by_cases h2 : hd.1 = c
    · rw [show getEntry c (hd :: tl) = some hd.2 by
        simp [getEntry, h2]] at h
      cases h
    · have h3 : getEntry c tl = Option.none := by
        simpa [getEntry, h2] using h
      simp [countKey, h2, ih h3]

theorem countKey_setEntry_absent (c : Checksum) (fd : FileData) (l : CacheFiles)
    (h : getEntry c l = Option.none) : countKey c (setEntry c fd l) = 1 := by
  induction l with
  | nil => simp [setEntry, countKey]
  | cons hd tl ih =>
    by_cases h2 : hd.1 = c
    · rw [show getEntry c (hd :: tl) = some hd.2 by
        simp [getEntry, h2]] at h
      cases h
    · have h3 : getEntry c tl = Option.none := by
        simpa [getEntry, h2] using h
      simp [setEntry, countKey, h2, ih h3]

theorem countUploads_sched_sleep (P : Prop) [Decidable P] (c : Checksum) :
    countUploads ((if P then [Event.scheduleTask c] else []) ++ [Event.sleepGrace]) = 0 := by
  by_cases h : P <;> simp [h, countUploads, isUploadEvent]

/-- One-step evaluation of local add_file on an initialized state when the
checksum is new. -/
theorem local_add_file_new (hash : List Nat → Checksum) (now : String)
    (raw : RawFileData) (ep : EnsureProcess) (sL : LocalState)
    (hInit : sL.folder_initialized = true)
    (hAbs : getEntry (hash raw.content) sL.core.file_cache = Option.none) :
    LocalStorageInterface.add_file hash now raw ep sL =
      ⟨.ok { checksum := hash raw.content,
             is_processing := lockHeld (hash raw.content) sL.core.processing_locks,
             file_data :=
               { file_reference := sL.files_folder ++ "/" ++ hash raw.content ++ "_" ++ raw.name,
                 name := raw.name, mime_type := raw.mime_type,
                 size := raw.content.length, modified_time := now,
                 raw_ocr := Option.none, summary := Option.none } },
       { core := { file_cache := setEntry (hash raw.content)
                     { file_reference := sL.files_folder ++ "/" ++ hash raw.content ++ "_" ++ raw.name,
                       name := raw.name, mime_type := raw.mime_type,
                       size := raw.content.length, modified_time := now,
                       raw_ocr := Option.none, summary := Option.none } sL.core.file_cache,
                   processing_locks := sL.core.processing_locks },
         disk := putObject (sL.files_folder ++ "/" ++ hash raw.content ++ "_" ++ raw.name)
                   raw.content sL.disk,
         metadata_doc := .doc (setEntry (hash raw.content)
                     { file_reference := sL.files_folder ++ "/" ++ hash raw.content ++ "_" ++ raw.name,
                       name := raw.name, mime_type := raw.mime_type,
                       size := raw.content.length, modified_time := now,
                       raw_ocr := Option.none, summary := Option.none } sL.core.file_cache),
         folder_initialized := sL.folder_initialized,
         files_folder := sL.files_folder },
       Event.fsWriteFile (sL.files_folder ++ "/" ++ hash raw.content ++ "_" ++ raw.name) ::
         Event.cacheWrite :: Event.remoteMetaWrite ::
         ((if ep ≠ EnsureProcess.none ∧ ¬ hasLockEntry (hash raw.content) sL.core.processing_locks
           then [Event.scheduleTask (hash raw.content)] else []) ++ [Event.sleepGrace])⟩ := by
  unfold LocalStorageInterface.add_file LocalStorageInterface.add_file_data
    LocalStorageInterface.ensure_folder_structure LocalStorageInterface.save_metadata
  rw [if_pos hInit]
  dsimp only
  rw [hAbs]
  rfl

/-- One-step evaluation of local add_file on an initialized state when the
checksum is already cached. -/
theorem local_add_file_existing (hash : List Nat → Checksum) (now : String)
    (raw : RawFileData) (ep : EnsureProcess) (sL : LocalState) (fd : FileData)
    (hInit : sL.folder_initialized = true)
    (hHit : getEntry (hash raw.content) sL.core.file_cache = some fd) :
    LocalStorageInterface.add_file hash now raw ep sL =
      ⟨.ok { checksum := hash raw.content,
             is_processing := lockHeld (hash raw.content) sL.core.processing_locks,
             file_data := fd },
       sL,
       (if ep ≠ EnsureProcess.none ∧ ¬ hasLockEntry (hash raw.content) sL.core.processing_locks
        then [Event.scheduleTask (hash raw.content)] else []) ++ [Event.sleepGrace]⟩ := by
  unfold LocalStorageInterface.add_file LocalStorageInterface.ensure_folder_structure
  rw [if_pos hInit]
  dsimp only
  rw [hHit]
  rfl

/-- One-step evaluation of S3 add_file on an initialized state when the
checksum is new. -/
theorem s3_add_file_new (hash : List Nat → Checksum) (modIso : String)
    (raw : RawFileData) (ep : EnsureProcess) (sS : S3State)
    (hInit : sS.layout_initialized = true)
    (hAbs : getEntry (hash raw.content) sS.core.file_cache = Option.none) :
    AmazonS3Interface.add_file hash modIso raw ep sS =
      ⟨.ok { checksum := hash raw.content,
             is_processing := lockHeld (hash raw.content) sS.core.processing_locks,
             file_data :=
               { file_reference := AmazonS3Interface.filesKey (hash raw.content) raw.name,
                 name := raw.name, mime_type := raw.mime_type,
                 size := raw.content.length, modified_time := modIso,
                 raw_ocr := Option.none, summary := Option.none } },
       { core := { file_cache := setEntry (hash raw.content)
                     { file_reference := AmazonS3Interface.filesKey (hash raw.content) raw.name,
                       name := raw.name, mime_type := raw.mime_type,
                       size := raw.content.length, modified_time := modIso,
                       raw_ocr := Option.none, summary := Option.none } sS.core.file_cache,
                   processing_locks := sS.core.processing_locks },
         objects := putObject (AmazonS3Interface.filesKey (hash raw.content) raw.name)
                      raw.content sS.objects,
         metadata_object := .doc (setEntry (hash raw.content)
                     { file_reference := AmazonS3Interface.filesKey (hash raw.content) raw.name,
                       name := raw.name, mime_type := raw.mime_type,
                       size := raw.content.length, modified_time := modIso,
                       raw_ocr := Option.none, summary := Option.none } sS.core.file_cache),
         layout_initialized := sS.layout_initialized },
       Event.uploadObject (AmazonS3Interface.filesKey (hash raw.content) raw.name) ::
         Event.cacheWrite :: Event.remoteMetaWrite ::
         ((if ep ≠ EnsureProcess.none ∧ ¬ hasLockEntry (hash raw.content) sS.core.processing_locks
           then [Event.scheduleTask (hash raw.content)] else []) ++ [Event.sleepGrace])⟩ := by
  unfold AmazonS3Interface.add_file AmazonS3Interface.add_file_data
    AmazonS3Interface.ensure_layout AmazonS3Interface.push_metadata
  rw [if_pos hInit]
  dsimp only
  rw [hAbs]
  dsimp only
  rw [if_pos hInit]
  rfl

/-- One-step evaluation of S3 add_file on an initialized state when the
checksum is already cached. -/
theorem s3_add_file_existing (hash : List Nat → Checksum) (modIso : String)
    (raw : RawFileData) (ep : EnsureProcess) (sS : S3State) (fd : FileData)
    (hInit : sS.layout_initialized = true)
    (hHit : getEntry (hash raw.content) sS.core.file_cache = some fd) :
    AmazonS3Interface.add_file hash modIso raw ep sS =
      ⟨.ok { checksum := hash raw.content,
             is_processing := lockHeld (hash raw.content) sS.core.processing_locks,
             file_data := fd },
       sS,
       (if ep ≠ EnsureProcess.none ∧ ¬ hasLockEntry (hash raw.content) sS.core.processing_locks
        then [Event.scheduleTask (hash raw.content)] else []) ++ [Event.sleepGrace]⟩ := by
  unfold AmazonS3Interface.add_file AmazonS3Interface.ensure_layout
  rw [if_pos hInit]
  dsimp only
  rw [hHit]
  rfl

/-- C5: calling add_file twice with byte-identical content yields the same
checksum and the same stored file_reference both times, uploads the
physical object exactly once (the second call performs no upload event and
changes no state), and leaves a single cache entry for the checksum whose
stored name (and whole FileData) comes from the first call — for both the
local-filesystem and the object-storage adapter. -/
theorem C5_add_file_idempotent
    (hash : List Nat → Checksum) (now1 now2 : String)
    (raw1 raw2 : RawFileData) (hcontent : raw2.content = raw1.content)
    (ep1 ep2 : EnsureProcess)
    (sL : LocalState) (hInitL : sL.folder_initialized = true)
    (hAbsL : getEntry (hash raw1.content) sL.core.file_cache = Option.none)
    (sS : S3State) (hInitS : sS.layout_initialized = true)
    (hAbsS : getEntry (hash raw1.content) sS.core.file_cache = Option.none) :
    (∃ resp1 resp2 : FileDataResponse,
      (LocalStorageInterface.add_file hash now1 raw1 ep1 sL).result = .ok resp1 ∧
      (LocalStorageInterface.add_file hash now2 raw2 ep2
        (LocalStorageInterface.add_file hash now1 raw1 ep1 sL).state).result = .ok resp2 ∧
      resp2.checksum = resp1.checksum ∧
      resp2.file_data.file_reference = resp1.file_data.file_reference ∧
      resp2.file_data = resp1.file_data ∧
      resp1.file_data.name = raw1.name ∧
      countUploads (LocalStorageInterface.add_file hash now1 raw1 ep1 sL).events = 1 ∧
      countUploads (LocalStorageInterface.add_file hash now2 raw2 ep2
        (LocalStorageInterface.add_file hash now1 raw1 ep1 sL).state).events = 0 ∧
      (LocalStorageInterface.add_file hash now2 raw2 ep2
        (LocalStorageInterface.add_file hash now1 raw1 ep1 sL).state).state =
        (LocalStorageInterface.add_file hash now1 raw1 ep1 sL).state ∧
      countKey (hash raw1.content)
        (LocalStorageInterface.add_file hash now1 raw1 ep1 sL).state.core.file_cache = 1 ∧
      getEntry (hash raw1.content)
        (LocalStorageInterface.add_file hash now1 raw1 ep1 sL).state.core.file_cache =
        some resp1.file_data) ∧
    (∃ resp1 resp2 : FileDataResponse,
      (AmazonS3Interface.add_file hash now1 raw1 ep1 sS).result = .ok resp1 ∧
      (AmazonS3Interface.add_file hash now2 raw2 ep2
        (AmazonS3Interface.add_file hash now1 raw1 ep1 sS).state).result = .ok resp2 ∧
      resp2.checksum = resp1.checksum ∧
      resp2.file_data.file_reference = resp1.file_data.file_reference ∧
      resp2.file_data = resp1.file_data ∧
      resp1.file_data.name = raw1.name ∧
      countUploads (AmazonS3Interface.add_file hash now1 raw1 ep1 sS).events = 1 ∧
      countUploads (AmazonS3Interface.add_file hash now2 raw2 ep2
        (AmazonS3Interface.add_file hash now1 raw1 ep1 sS).state).events = 0 ∧
      (AmazonS3Interface.add_file hash now2 raw2 ep2
        (AmazonS3Interface.add_file hash now1 raw1 ep1 sS).state).state =
        (AmazonS3Interface.add_file hash now1 raw1 ep1 sS).state ∧
      countKey (hash raw1.content)
        (AmazonS3Interface.add_file hash now1 raw1 ep1 sS).state.core.file_cache = 1 ∧
      getEntry (hash raw1.content)
        (AmazonS3Interface.add_file hash now1 raw1 ep1 sS).state.core.file_cache =
        some resp1.file_data) := by
  constructor
  · have h1 := local_add_file_new hash now1 raw1 ep1 sL hInitL hAbsL
    have hInit2 : (LocalStorageInterface.add_file hash now1 raw1 ep1 sL).state.folder_initialized = true := by
      rw [h1]; exact hInitL
    have hHit2 : getEntry (hash raw2.content)
        (LocalStorageInterface.add_file hash now1 raw1 ep1 sL).state.core.file_cache =
        some { file_reference := sL.files_folder ++ "/" ++ hash raw1.content ++ "_" ++ raw1.name,
               name := raw1.name, mime_type := raw1.mime_type,
               size := raw1.content.length, modified_time := now1,
               raw_ocr := Option.none, summary := Option.none } := by
      rw [h1, hcontent]
      exact getEntry_setEntry_same _ _ _
    have h2 := local_add_file_existing hash now2 raw2 ep2
      (LocalStorageInterface.add_file hash now1 raw1 ep1 sL).state _ hInit2 hHit2
    refine ⟨{ checksum := hash raw1.content,
              is_processing := lockHeld (hash raw1.content) sL.core.processing_locks,
              file_data := { file_reference := sL.files_folder ++ "/" ++ hash raw1.content ++ "_" ++ raw1.name,
                             name := raw1.name, mime_type := raw1.mime_type,
                             size := raw1.content.length, modified_time := now1,
                             raw_ocr := Option.none, summary := Option.none } },
            { checksum := hash raw2.content,
              is_processing := lockHeld (hash raw2.content)
                (LocalStorageInterface.add_file hash now1 raw1 ep1 sL).state.core.processing_locks,
              file_data := { file_reference := sL.files_folder ++ "/" ++ hash raw1.content ++ "_" ++ raw1.name,
                             name := raw1.name, mime_type := raw1.mime_type,
                             size := raw1.content.length, modified_time := now1,
                             raw_ocr := Option.none, summary := Option.none } },
            ?_, ?_, ?_, ?_, ?_, ?_, ?_, ?_, ?_, ?_, ?_⟩
    · rw [h1]
    · rw [h2]
    · rw [hcontent]
    · rfl
    · rfl
    · rfl
    · rw [h1]
      show (1 + countUploads _) = 1
      rw [show countUploads (Event.cacheWrite :: Event.remoteMetaWrite ::
        ((if ep1 ≠ EnsureProcess.none ∧ ¬ hasLockEntry (hash raw1.content) sL.core.processing_locks
          then [Event.scheduleTask (hash raw1.content)] else []) ++ [Event.sleepGrace])) = 0 from by
        show (0 + (0 + countUploads _)) = 0
        rw [countUploads_sched_sleep]]
    · rw [h2]
      show countUploads ((if _ then _ else []) ++ [Event.sleepGrace]) = 0
      exact countUploads_sched_sleep _ _
    · rw [h2]
    · rw [h1]
      exact countKey_setEntry_absent _ _ _ hAbsL
    · rw [h1]
      exact getEntry_setEntry_same _ _ _
  · have h1 := s3_add_file_new hash now1 raw1 ep1 sS hInitS hAbsS
    have hInit2 : (AmazonS3Interface.add_file hash now1 raw1 ep1 sS).state.layout_initialized = true := by
      rw [h1]; exact hInitS
    have hHit2 : getEntry (hash raw2.content)
        (AmazonS3Interface.add_file hash now1 raw1 ep1 sS).state.core.file_cache =
        some { file_reference := AmazonS3Interface.filesKey (hash raw1.content) raw1.name,
               name := raw1.name, mime_type := raw1.mime_type,
               size := raw1.content.length, modified_time := now1,
               raw_ocr := Option.none, summary := Option.none } := by
      rw [h1, hcontent]
      exact getEntry_setEntry_same _ _ _
    have h2 := s3_add_file_existing hash now2 raw2 ep2
      (AmazonS3Interface.add_file hash now1 raw1 ep1 sS).state _ hInit2 hHit2
    refine ⟨{ checksum := hash raw1.content,
              is_processing := lockHeld (hash raw1.content) sS.core.processing_locks,
              file_data := { file_reference := AmazonS3Interface.filesKey (hash raw1.content) raw1.name,
                             name := raw1.name, mime_type := raw1.mime_type,
                             size := raw1.content.length, modified_time := now1,
                             raw_ocr := Option.none, summary := Option.none } },
            { checksum := hash raw2.content,
              is_processing := lockHeld (hash raw2.content)
                (AmazonS3Interface.add_file hash now1 raw1 ep1 sS).state.core.processing_locks,
              file_data := { file_reference := AmazonS3Interface.filesKey (hash raw1.content) raw1.name,
                             name := raw1.name, mime_type := raw1.mime_type,
                             size := raw1.content.length, modified_time := now1,
                             raw_ocr := Option.none, summary := Option.none } },
            ?_, ?_, ?_, ?_, ?_, ?_, ?_, ?_, ?_, ?_, ?_⟩
    · rw [h1]
    · rw [h2]
    · rw [hcontent]
    · rfl
    · rfl
    · rfl
    · rw [h1]
      show (1 + countUploads _) = 1
      rw [show countUploads (Event.cacheWrite :: Event.remoteMetaWrite ::
        ((if ep1 ≠ EnsureProcess.none ∧ ¬ hasLockEntry (hash raw1.content) sS.core.processing_locks
          then [Event.scheduleTask (hash raw1.content)] else []) ++ [Event.sleepGrace])) = 0 from by
        show (0 + (0 + countUploads _)) = 0
        rw [countUploads_sched_sleep]]
    · rw [h2]
      show countUploads ((if _ then _ else []) ++ [Event.sleepGrace]) = 0
      exact countUploads_sched_sleep _ _
    · rw [h2]
    · rw [h1]
      exact countKey_setEntry_absent _ _ _ hAbsS
    · rw [h1]
      exact getEntry_setEntry_same _ _ _

/-- C5 witness: the idempotence theorem evaluated at a concrete two-byte
payload on freshly bootstrapped adapters. -/
theorem C5_add_file_idempotent_witness :
    (∃ resp1 resp2 : FileDataResponse,
      (LocalStorageInterface.add_file (fun bs => toString bs) "t1"
        ⟨[1, 2], "first.pdf", "application/pdf"⟩ .none
        { core := { file_cache := [], processing_locks := [] },
          disk := [], metadata_doc := .doc [], folder_initialized := true,
          files_folder := "root/files" }).result = .ok resp1 ∧
      (LocalStorageInterface.add_file (fun bs => toString bs) "t2"
        ⟨[1, 2], "second.pdf", "image/png"⟩ .ocr
        (LocalStorageInterface.add_file (fun bs => toString bs) "t1"
          ⟨[1, 2], "first.pdf", "application/pdf"⟩ .none
          { core := { file_cache := [], processing_locks := [] },
            disk := [], metadata_doc := .doc [], folder_initialized := true,
            files_folder := "root/files" }).state).result = .ok resp2 ∧
      resp2.checksum = resp1.checksum ∧
      resp2.file_data.file_reference = resp1.file_data.file_reference ∧
      resp2.file_data = resp1.file_data ∧
      resp1.file_data.name = "first.pdf" ∧
      countUploads (LocalStorageInterface.add_file (fun bs => toString bs) "t1"
        ⟨[1, 2], "first.pdf", "application/pdf"⟩ .none
        { core := { file_cache := [], processing_locks := [] },
          disk := [], metadata_doc := .doc [], folder_initialized := true,
          files_folder := "root/files" }).events = 1 ∧
      countUploads (LocalStorageInterface.add_file (fun bs => toString bs) "t2"
        ⟨[1, 2], "second.pdf", "image/png"⟩ .ocr
        (LocalStorageInterface.add_file (fun bs => toString bs) "t1"
          ⟨[1, 2], "first.pdf", "application/pdf"⟩ .none
          { core := { file_cache := [], processing_locks := [] },
            disk := [], metadata_doc := .doc [], folder_initialized := true,
            files_folder := "root/files" }).state).events = 0 ∧
      (LocalStorageInterface.add_file (fun bs => toString bs) "t2"
        ⟨[1, 2], "second.pdf", "image/png"⟩ .ocr
        (LocalStorageInterface.add_file (fun bs => toString bs) "t1"
          ⟨[1, 2], "first.pdf", "application/pdf"⟩ .none
          { core := { file_cache := [], processing_locks := [] },
            disk := [], metadata_doc := .doc [], folder_initialized := true,
            files_folder := "root/files" }).state).state =
        (LocalStorageInterface.add_file (fun bs => toString bs) "t1"
          ⟨[1, 2], "first.pdf", "application/pdf"⟩ .none
          { core := { file_cache := [], processing_locks := [] },
            disk := [], metadata_doc := .doc [], folder_initialized := true,
            files_folder := "root/files" }).state ∧
      countKey ((fun (bs : List Nat) => toString bs) [1, 2])
        (LocalStorageInterface.add_file (fun bs => toString bs) "t1"
          ⟨[1, 2], "first.pdf", "application/pdf"⟩ .none
          { core := { file_cache := [], processing_locks := [] },
            disk := [], metadata_doc := .doc [], folder_initialized := true,
            files_folder := "root/files" }).state.core.file_cache = 1 ∧
      getEntry ((fun (bs : List Nat) => toString bs) [1, 2])
        (LocalStorageInterface.add_file (fun bs => toString bs) "t1"
          ⟨[1, 2], "first.pdf", "application/pdf"⟩ .none
          { core := { file_cache := [], processing_locks := [] },
            disk := [], metadata_doc := .doc [], folder_initialized := true,
            files_folder := "root/files" }).state.core.file_cache =
        some resp1.file_data) ∧
    (∃ resp1 resp2 : FileDataResponse,
      (AmazonS3Interface.add_file (fun bs => toString bs) "t1"
        ⟨[1, 2], "first.pdf", "application/pdf"⟩ .none
        { core := { file_cache := [], processing_locks := [] },
          objects := [], metadata_object := .doc [], layout_initialized := true }).result = .ok resp1 ∧
      (AmazonS3Interface.add_file (fun bs => toString bs) "t2"
        ⟨[1, 2], "second.pdf", "image/png"⟩ .ocr
        (AmazonS3Interface.add_file (fun bs => toString bs) "t1"
          ⟨[1, 2], "first.pdf", "application/pdf"⟩ .none
          { core := { file_cache := [], processing_locks := [] },
            objects := [], metadata_object := .doc [], layout_initialized := true }).state).result = .ok resp2 ∧
      resp2.checksum = resp1.checksum ∧
      resp2.file_data.file_reference = resp1.file_data.file_reference ∧
      resp2.file_data = resp1.file_data ∧
      resp1.file_data.name = "first.pdf" ∧
      countUploads (AmazonS3Interface.add_file (fun bs => toString bs) "t1"
        ⟨[1, 2], "first.pdf", "application/pdf"⟩ .none
        { core := { file_cache := [], processing_locks := [] },
          objects := [], metadata_object := .doc [], layout_initialized := true }).events = 1 ∧
      countUploads (AmazonS3Interface.add_file (fun bs => toString bs) "t2"
        ⟨[1, 2], "second.pdf", "image/png"⟩ .ocr
        (AmazonS3Interface.add_file (fun bs => toString bs) "t1"
          ⟨[1, 2], "first.pdf", "application/pdf"⟩ .none
          { core := { file_cache := [], processing_locks := [] },
            objects := [], metadata_object := .doc [], layout_initialized := true }).state).events = 0 ∧
      (AmazonS3Interface.add_file (fun bs => toString bs) "t2"
        ⟨[1, 2], "second.pdf", "image/png"⟩ .ocr
        (AmazonS3Interface.add_file (fun bs => toString bs) "t1"
          ⟨[1, 2], "first.pdf", "application/pdf"⟩ .none
          { core := { file_cache := [], processing_locks := [] },
            objects := [], metadata_object := .doc [], layout_initialized := true }).state).state =
        (AmazonS3Interface.add_file (fun bs => toString bs) "t1"
          ⟨[1, 2], "first.pdf", "application/pdf"⟩ .none
          { core := { file_cache := [], processing_locks := [] },
            objects := [], metadata_object := .doc [], layout_initialized := true }).state ∧
      countKey ((fun (bs : List Nat) => toString bs) [1, 2])
        (AmazonS3Interface.add_file (fun bs => toString bs) "t1"
          ⟨[1, 2], "first.pdf", "application/pdf"⟩ .none
          { core := { file_cache := [], processing_locks := [] },
            objects := [], metadata_object := .doc [], layout_initialized := true }).state.core.file_cache = 1 ∧
      getEntry ((fun (bs : List Nat) => toString bs) [1, 2])
        (AmazonS3Interface.add_file (fun bs => toString bs) "t1"
          ⟨[1, 2], "first.pdf", "application/pdf"⟩ .none
          { core := { file_cache := [], processing_locks := [] },
            objects := [], metadata_object := .doc [], layout_initialized := true }).state.core.file_cache =
        some resp1.file_data) :=
  C5_add_file_idempotent (fun bs => toString bs) "t1" "t2"
    ⟨[1, 2], "first.pdf", "application/pdf"⟩ ⟨[1, 2], "second.pdf", "image/png"⟩ rfl
    .none .ocr
    { core := { file_cache := [], processing_locks := [] },
      disk := [], metadata_doc := .doc [], folder_initialized := true,
      files_folder := "root/files" } rfl rfl
    { core := { file_cache := [], processing_locks := [] },
      objects := [], metadata_object := .doc [], layout_initialized := true } rfl rfl

/-! ### Claim C6 -/

/-- One-step evaluation of Drive add_file on an initialized state when the
checksum is new. -/
theorem gdrive_add_file_new (hash : List Nat → Checksum) (modIso : String)
    (raw : RawFileData) (ep : EnsureProcess) (sG : GDriveState)
    (hInit : sG.folder_initialized = true)
    (hAbs : getEntry (hash raw.content) sG.core.file_cache = Option.none) :
    GoogleDriveInterface.add_file hash modIso raw ep sG =
      ⟨.ok { checksum := hash raw.content,
             is_processing := lockHeld (hash raw.content) sG.core.processing_locks,
             file_data :=
               { file_reference := "gdrive-" ++ toString sG.next_id,
                 name := raw.name, mime_type := raw.mime_type,
                 size := raw.content.length, modified_time := modIso,
                 raw_ocr := Option.none, summary := Option.none } },
       { core := { file_cache := setEntry (hash raw.content)
                     { file_reference := "gdrive-" ++ toString sG.next_id,
                       name := raw.name, mime_type := raw.mime_type,
                       size := raw.content.length, modified_time := modIso,
                       raw_ocr := Option.none, summary := Option.none } sG.core.file_cache,
                   processing_locks := sG.core.processing_locks },
         drive_files := putObject ("gdrive-" ++ toString sG.next_id) raw.content sG.drive_files,
         metadata_doc := .doc (setEntry (hash raw.content)
                     { file_reference := "gdrive-" ++ toString sG.next_id,
                       name := raw.name, mime_type := raw.mime_type,
                       size := raw.content.length, modified_time := modIso,
                       raw_ocr := Option.none, summary := Option.none } sG.core.file_cache),
         main_folder := sG.main_folder, files_folder := sG.files_folder,
         folder_initialized := sG.folder_initialized, next_id := sG.next_id + 1 },
       Event.uploadObject ("gdrive-" ++ toString sG.next_id) ::
         Event.cacheWrite :: Event.remoteMetaWrite ::
         ((if ep ≠ EnsureProcess.none ∧ ¬ hasLockEntry (hash raw.content) sG.core.processing_locks
           then [Event.scheduleTask (hash raw.content)] else []) ++ [Event.sleepGrace])⟩ := by
  unfold GoogleDriveInterface.add_file GoogleDriveInterface.add_file_data
    GoogleDriveInterface.get_drive_service
  rw [if_pos hInit]
  dsimp only
  rw [hAbs]
  dsimp only
  rw [if_pos hInit]
  rfl

/-- One-step evaluation of Drive add_file on an initialized state when the
checksum is already cached. -/
theorem gdrive_add_file_existing (hash : List Nat → Checksum) (modIso : String)
    (raw : RawFileData) (ep : EnsureProcess) (sG : GDriveState) (fd : FileData)
    (hInit : sG.folder_initialized = true)
    (hHit : getEntry (hash raw.content) sG.core.file_cache = some fd) :
    GoogleDriveInterface.add_file hash modIso raw ep sG =
      ⟨.ok { checksum := hash raw.content,
             is_processing := lockHeld (hash raw.content) sG.core.processing_locks,
             file_data := fd },
       sG,
       (if ep ≠ EnsureProcess.none ∧ ¬ hasLockEntry (hash raw.content) sG.core.processing_locks
        then [Event.scheduleTask (hash raw.content)] else []) ++ [Event.sleepGrace]⟩ := by
  unfold GoogleDriveInterface.add_file GoogleDriveInterface.get_drive_service
  rw [if_pos hInit]
  dsimp only
  rw [hHit]
  rfl

/-- A scheduleTask event for a checksum sits in an add_file trace exactly
when the scheduling condition fired, provided the trace prefix contains no
scheduleTask for that checksum. -/
theorem mem_sched_iff (P : Prop) [Decidable P] (c : Checksum) (pre : List Event)
    (hpre : Event.scheduleTask c ∉ pre) :
    (Event.scheduleTask c ∈
      pre ++ ((if P then [Event.scheduleTask c] else []) ++ [Event.sleepGrace])) ↔ P := by
  by_cases h : P <;> simp [h, hpre]

/-- Sample cache entry used by the C6 counterexample. -/
def c6fd : FileData :=
  { file_reference := "root/files/c_a.pdf", name := "a.pdf",
    mime_type := "application/pdf", size := 1, modified_time := "t0",
    raw_ocr := Option.none, summary := Option.none }

/-- A bootstrapped local adapter state where the lock object for "c" exists
but is NOT held (a previous derivation finished) and raw_ocr is unset. -/
def c6State : LocalState :=
  { core := { file_cache := [("c", c6fd)], processing_locks := [("c", false)] },
    disk := [("root/files/c_a.pdf", [0])],
    metadata_doc := .doc [("c", c6fd)], folder_initialized := true,
    files_folder := "root/files" }

/-- C6 counterexample: the claim says add_file schedules the pipeline
exactly when no lock is currently HELD, in particular when a lock object
exists but is free and a higher level is requested with the field unset.
At c6State the lock for "c" exists and is not held, raw_ocr is unset, and a
level-ocr add_file of the same content schedules nothing: the source tests
`checksum not in self.processing_locks` (lock existence), not heldness. -/
theorem C6_counterexample_free_lock_suppresses_scheduling :
    lockHeld "c" c6State.core.processing_locks = false ∧
    hasLockEntry "c" c6State.core.processing_locks = true ∧
    c6fd.raw_ocr = Option.none ∧
    Event.scheduleTask "c" ∉
      (LocalStorageInterface.add_file (fun _ => "c") "t1"
        ⟨[0], "a.pdf", "application/pdf"⟩ .ocr c6State).events := by
  refine ⟨rfl, rfl, rfl, ?_⟩
  decide

/-- C6 amended: for every adapter, add_file schedules the Derivation
Pipeline exactly when the requested level is not "none" AND no lock object
exists for the checksum at all — lock existence, not heldness: a
previously created lock suppresses re-scheduling even when it is free and
a higher derivation level is requested with the corresponding field still
unset. -/
theorem C6_amended_schedule_iff_no_lock_entry
    (hash : List Nat → Checksum) (now : String) (raw : RawFileData) (ep : EnsureProcess)
    (sL : LocalState) (hInitL : sL.folder_initialized = true)
    (sS : S3State) (hInitS : sS.layout_initialized = true)
    (sG : GDriveState) (hInitG : sG.folder_initialized = true) :
    (Event.scheduleTask (hash raw.content) ∈
        (LocalStorageInterface.add_file hash now raw ep sL).events ↔
      (ep ≠ EnsureProcess.none ∧ ¬ hasLockEntry (hash raw.content) sL.core.processing_locks)) ∧
    (Event.scheduleTask (hash raw.content) ∈
        (AmazonS3Interface.add_file hash now raw ep sS).events ↔
      (ep ≠ EnsureProcess.none ∧ ¬ hasLockEntry (hash raw.content) sS.core.processing_locks)) ∧
    (Event.scheduleTask (hash raw.content) ∈
        (GoogleDriveInterface.add_file hash now raw ep sG).events ↔
      (ep ≠ EnsureProcess.none ∧ ¬ hasLockEntry (hash raw.content) sG.core.processing_locks)) := by
  refine ⟨?_, ?_, ?_⟩
  · cases hget : getEntry (hash raw.content) sL.core.file_cache with
    | none =>
      rw [local_add_file_new hash now raw ep sL hInitL hget]
      exact mem_sched_iff _ _
        [Event.fsWriteFile (sL.files_folder ++ "/" ++ hash raw.content ++ "_" ++ raw.name),
         Event.cacheWrite, Event.remoteMetaWrite] (by simp)
    | some fd =>
      rw [local_add_file_existing hash now raw ep sL fd hInitL hget]
      exact mem_sched_iff _ _ ([] : List Event) (List.not_mem_nil _)
  · cases hget : getEntry (hash raw.content) sS.core.file_cache with
    | none =>
      rw [s3_add_file_new hash now raw ep sS hInitS hget]
      exact mem_sched_iff _ _
        [Event.uploadObject (AmazonS3Interface.filesKey (hash raw.content) raw.name),
         Event.cacheWrite, Event.remoteMetaWrite] (by simp)
    | some fd =>
      rw [s3_add_file_existing hash now raw ep sS fd hInitS hget]
      exact mem_sched_iff _ _ ([] : List Event) (List.not_mem_nil _)
  · cases hget : getEntry (hash raw.content) sG.core.file_cache with
    | none =>
      rw [gdrive_add_file_new hash now raw ep sG hInitG hget]
      exact mem_sched_iff _ _
        [Event.uploadObject ("gdrive-" ++ toString sG.next_id),
         Event.cacheWrite, Event.remoteMetaWrite] (by simp)
    | some fd =>
      rw [gdrive_add_file_existing hash now raw ep sG fd hInitG hget]
      exact mem_sched_iff _ _ ([] : List Event) (List.not_mem_nil _)

/-- C6 witness: the amended scheduling law evaluated on concrete
bootstrapped adapters with empty caches and no locks. -/
theorem C6_amended_schedule_iff_no_lock_entry_witness :
    (Event.scheduleTask ((fun (_ : List Nat) => "k") [5]) ∈
        (LocalStorageInterface.add_file (fun _ => "k") "t1" ⟨[5], "f.pdf", "application/pdf"⟩ .summary
          { core := { file_cache := [], processing_locks := [] },
            disk := [], metadata_doc := .doc [], folder_initialized := true,
            files_folder := "root/files" }).events ↔
      (EnsureProcess.summary ≠ EnsureProcess.none ∧
        ¬ hasLockEntry ((fun (_ : List Nat) => "k") [5]) ([] : LockTable))) ∧
    (Event.scheduleTask ((fun (_ : List Nat) => "k") [5]) ∈
        (AmazonS3Interface.add_file (fun _ => "k") "t1" ⟨[5], "f.pdf", "application/pdf"⟩ .summary
          { core := { file_cache := [], processing_locks := [] },
            objects := [], metadata_object := .doc [], layout_initialized := true }).events ↔
      (EnsureProcess.summary ≠ EnsureProcess.none ∧
        ¬ hasLockEntry ((fun (_ : List Nat) => "k") [5]) ([] : LockTable))) ∧
    (Event.scheduleTask ((fun (_ : List Nat) => "k") [5]) ∈
        (GoogleDriveInterface.add_file (fun _ => "k") "t1" ⟨[5], "f.pdf", "application/pdf"⟩ .summary
          { core := { file_cache := [], processing_locks := [] },
            drive_files := [], metadata_doc := .doc [], main_folder := true,
            files_folder := true, folder_initialized := true, next_id := 0 }).events ↔
      (EnsureProcess.summary ≠ EnsureProcess.none ∧
        ¬ hasLockEntry ((fun (_ : List Nat) => "k") [5]) ([] : LockTable))) :=
  C6_amended_schedule_iff_no_lock_entry (fun _ => "k") "t1"
    ⟨[5], "f.pdf", "application/pdf"⟩ .summary
    { core := { file_cache := [], processing_locks := [] },
      disk := [], metadata_doc := .doc [], folder_initialized := true,
      files_folder := "root/files" } rfl
    { core := { file_cache := [], processing_locks := [] },
      objects := [], metadata_object := .doc [], layout_initialized := true } rfl
    { core := { file_cache := [], processing_locks := [] },
      drive_files := [], metadata_doc := .doc [], main_folder := true,
      files_folder := true, folder_initialized := true, next_id := 0 } rfl

/-! ### Claim C7 -/

/-- Collaborators used in the C7 scenarios: a succeeding OCR engine and
summarizer. -/
def c7Oracle : OcrOracle :=
  { process_document := fun _ _ => .ok "REAL OCR TEXT",
    summarize_document := fun t => .ok ("SUMMARY OF " ++ t),
    downloadContent := fun _ => [7, 7, 7] }

/-- A fresh entry whose stored MIME type is text/plain (as declared by its
first uploader). -/
def c7fd0 : FileData :=
  { file_reference := "ref7", name := "scan.txt", mime_type := "text/plain",
    size := 3, modified_time := "t0", raw_ocr := Option.none, summary := Option.none }

/-- The post-add_file cache state for checksum "c". -/
def c7s0 : IState := { file_cache := [("c", c7fd0)], processing_locks := [] }

/-- The state after one level-ocr derivation in which the caller-provided
raw data declared MIME application/pdf (a second add_file of the same bytes
under a different declared MIME type passes its own raw data to the
pipeline): raw_ocr is now the real OCR text, summary still unset. -/
def c7s1 : IState :=
  (StorageInterface.ensure_ocr c7Oracle "c" .ocr
    (some ⟨[7, 7, 7], "scan.pdf", "application/pdf"⟩) c7s0).2

/-- C7 counterexample: the claim asserts both derivation fields are
write-once under derivation.  c7s1 is derivation-reachable and its entry
has raw_ocr = "REAL OCR TEXT" with summary unset; a subsequent level-summary
pipeline call with no raw data downloads the stored text/plain MIME type,
hits the unsupported-MIME branch (storage.py lines 83-84), and OVERWRITES
the existing raw_ocr (and summary) with the sentinel — raw_ocr is not
write-once. -/
theorem C7_counterexample_raw_ocr_overwritten :
    DerivReachable "c" c7s1 ∧
    getEntry "c" c7s1.file_cache =
      some { c7fd0 with raw_ocr := some "REAL OCR TEXT" } ∧
    getEntry "c"
        (StorageInterface.ensure_ocr c7Oracle "c" .summary Option.none c7s1).2.file_cache =
      some { c7fd0 with raw_ocr := some (ocrSentinel "text/plain"),
                        summary := some (ocrSentinel "text/plain") } ∧
    ocrSentinel "text/plain" ≠ "REAL OCR TEXT" := by
  refine ⟨?_, rfl, rfl, by decide⟩
  exact DerivReachable.step c7s0 c7Oracle "c" .ocr
    (some ⟨[7, 7, 7], "scan.pdf", "application/pdf"⟩)
    (DerivReachable.base c7s0 c7fd0 rfl rfl rfl)

/-- C7 amended: at every derivation-reachable state, a set summary implies
a set raw_ocr; and once summary is set, no further derivation pipeline call
— for any checksum, level, collaborators, or raw data — changes that entry
(summary is write-once under derivation).  raw_ocr alone is NOT write-once:
while summary is unset, a pipeline call seeing an unsupported MIME type
overwrites an already populated raw_ocr with the sentinel (see the
counterexample). -/
theorem C7_amended_summary_monotonic (c : Checksum) (s : IState)
    (hreach : DerivReachable c s) (fd : FileData)
    (hfd : getEntry c s.file_cache = some fd) (hs : fd.summary.isSome) :
    fd.raw_ocr.isSome ∧
    ∀ (o : OcrOracle) (c2 : Checksum) (ep : EnsureProcess) (rfd : Option RawFileData),
      getEntry c (StorageInterface.ensure_ocr o c2 ep rfd s).2.file_cache = some fd :=
  ⟨derivReachable_summary_invariant c s hreach fd hfd hs,
   fun o c2 ep rfd => ensure_ocr_preserves_completed_entry c s hreach fd hfd hs o c2 ep rfd⟩

/-- A fresh text/plain entry for the C7 witness. -/
def c7w0 : IState :=
  { file_cache := [("w",
      { file_reference := "refw", name := "n.txt", mime_type := "text/plain",
        size := 1, modified_time := "t0",
        raw_ocr := Option.none, summary := Option.none })],
    processing_locks := [] }

/-- The state after one level-summary derivation of the text/plain entry:
both fields now hold the unsupported-MIME sentinel. -/
def c7w1 : IState :=
  (StorageInterface.ensure_ocr c7Oracle "w" .summary Option.none c7w0).2

/-- The completed entry of c7w1. -/
def c7wfd : FileData :=
  { file_reference := "refw", name := "n.txt", mime_type := "text/plain",
    size := 1, modified_time := "t0",
    raw_ocr := some (ocrSentinel "text/plain"),
    summary := some (ocrSentinel "text/plain") }

/-- C7 witness: the amended monotonicity law evaluated at the concrete
derivation-reachable state c7w1, whose entry has a set summary: its raw_ocr
is set, and a further pipeline call leaves the entry unchanged. -/
theorem C7_amended_summary_monotonic_witness :
    c7wfd.raw_ocr.isSome ∧
    getEntry "w"
        (StorageInterface.ensure_ocr c7Oracle "w" .summary Option.none c7w1).2.file_cache =
      some c7wfd := by
  have hre : DerivReachable "w" c7w1 :=
    DerivReachable.step c7w0 c7Oracle "w" .summary Option.none
      (DerivReachable.base c7w0
        { file_reference := "refw", name := "n.txt", mime_type := "text/plain",
          size := 1, modified_time := "t0",
          raw_ocr := Option.none, summary := Option.none } rfl rfl rfl)
  have h := C7_amended_summary_monotonic "w" c7w1 hre c7wfd rfl (by rfl)
  exact ⟨h.1, h.2 c7Oracle "w" .summary Option.none⟩

/-! ### Claim C8 -/

/-- C8: for every adapter, bootstrap against a backend with no remote
metadata document returns success, initializes the cache empty, and creates
the remote document with the empty files mapping; bootstrap against a
present-but-unparseable document raises to the caller and leaves the cache
exactly as it was (no silent reset). -/
theorem C8_bootstrap_empty_vs_corrupt :
    (∀ sL : LocalState, sL.folder_initialized = false →
      (sL.metadata_doc = RemoteDoc.missing →
        (LocalStorageInterface.ensure_folder_structure sL).1 = .ok () ∧
        (LocalStorageInterface.ensure_folder_structure sL).2.1.core.file_cache = [] ∧
        (LocalStorageInterface.ensure_folder_structure sL).2.1.metadata_doc = RemoteDoc.doc []) ∧
      (sL.metadata_doc = RemoteDoc.corrupt →
        (LocalStorageInterface.ensure_folder_structure sL).1 = .error .corruptMetadata ∧
        (LocalStorageInterface.ensure_folder_structure sL).2.1.core.file_cache = sL.core.file_cache)) ∧
    (∀ sS : S3State, sS.layout_initialized = false →
      (sS.metadata_object = RemoteDoc.missing →
        (AmazonS3Interface.ensure_layout sS).1 = .ok () ∧
        (AmazonS3Interface.ensure_layout sS).2.1.core.file_cache = [] ∧
        (AmazonS3Interface.ensure_layout sS).2.1.metadata_object = RemoteDoc.doc []) ∧
      (sS.metadata_object = RemoteDoc.corrupt →
        (AmazonS3Interface.ensure_layout sS).1 = .error .corruptMetadata ∧
        (AmazonS3Interface.ensure_layout sS).2.1.core.file_cache = sS.core.file_cache)) ∧
    (∀ sG : GDriveState, sG.folder_initialized = false →
      (sG.metadata_doc = RemoteDoc.missing →
        (GoogleDriveInterface.get_drive_service sG).1 = .ok () ∧
        (GoogleDriveInterface.get_drive_service sG).2.1.core.file_cache = [] ∧
        (GoogleDriveInterface.get_drive_service sG).2.1.metadata_doc = RemoteDoc.doc []) ∧
      (sG.metadata_doc = RemoteDoc.corrupt →
        (GoogleDriveInterface.get_drive_service sG).1 = .error .corruptMetadata ∧
        (GoogleDriveInterface.get_drive_service sG).2.1.core.file_cache = sG.core.file_cache)) := by
  refine ⟨?_, ?_, ?_⟩
  · intro sL h
    have hcond : ¬ sL.folder_initialized = true := by rw [h]; exact Bool.false_ne_true
    constructor
    · intro hdoc
      unfold LocalStorageInterface.ensure_folder_structure LocalStorageInterface.save_metadata
      rw [if_neg hcond, hdoc]
      exact ⟨rfl, rfl, rfl⟩
    · intro hdoc
      unfold LocalStorageInterface.ensure_folder_structure
      rw [if_neg hcond, hdoc]
      exact ⟨rfl, rfl⟩
  · intro sS h
    have hcond : ¬ sS.layout_initialized = true := by rw [h]; exact Bool.false_ne_true
    constructor
    · intro hdoc
      unfold AmazonS3Interface.ensure_layout
      rw [if_neg hcond, hdoc]
      exact ⟨rfl, rfl, rfl⟩
    · intro hdoc
      unfold AmazonS3Interface.ensure_layout
      rw [if_neg hcond, hdoc]
      exact ⟨rfl, rfl⟩
  · intro sG h
    have hcond : ¬ sG.folder_initialized = true := by rw [h]; exact Bool.false_ne_true
    constructor
    · intro hdoc
      unfold GoogleDriveInterface.get_drive_service GoogleDriveInterface.ensure_folder_structure
      rw [if_neg hcond, hdoc]
      exact ⟨rfl, rfl, rfl⟩
    · intro hdoc
      unfold GoogleDriveInterface.get_drive_service GoogleDriveInterface.ensure_folder_structure
      rw [if_neg hcond, hdoc]
      exact ⟨rfl, rfl⟩

/-- Sample pre-existing entry for the C8 witness (corrupt-document cases:
the cache must not be reset). -/
def c8fd : FileData :=
  { file_reference := "refz", name := "z.pdf", mime_type := "application/pdf",
    size := 2, modified_time := "t0", raw_ocr := Option.none, summary := Option.none }

/-- C8 witness: bootstrap evaluated on concrete empty-backend and
corrupt-document states for all three adapters. -/
theorem C8_bootstrap_empty_vs_corrupt_witness :
    ((LocalStorageInterface.ensure_folder_structure
        { core := { file_cache := [("z", c8fd)], processing_locks := [] },
          disk := [], metadata_doc := .missing, folder_initialized := false,
          files_folder := "root/files" }).1 = .ok () ∧
      (LocalStorageInterface.ensure_folder_structure
        { core := { file_cache := [("z", c8fd)], processing_locks := [] },
          disk := [], metadata_doc := .missing, folder_initialized := false,
          files_folder := "root/files" }).2.1.core.file_cache = [] ∧
      (LocalStorageInterface.ensure_folder_structure
        { core := { file_cache := [("z", c8fd)], processing_locks := [] },
          disk := [], metadata_doc := .missing, folder_initialized := false,
          files_folder := "root/files" }).2.1.metadata_doc = RemoteDoc.doc []) ∧
    ((LocalStorageInterface.ensure_folder_structure
        { core := { file_cache := [("z", c8fd)], processing_locks := [] },
          disk := [], metadata_doc := .corrupt, folder_initialized := false,
          files_folder := "root/files" }).1 = .error .corruptMetadata ∧
      (LocalStorageInterface.ensure_folder_structure
        { core := { file_cache := [("z", c8fd)], processing_locks := [] },
          disk := [], metadata_doc := .corrupt, folder_initialized := false,
          files_folder := "root/files" }).2.1.core.file_cache = [("z", c8fd)]) ∧
    ((AmazonS3Interface.ensure_layout
        { core := { file_cache := [("z", c8fd)], processing_locks := [] },
          objects := [], metadata_object := .missing, layout_initialized := false }).1 = .ok () ∧
      (AmazonS3Interface.ensure_layout
        { core := { file_cache := [("z", c8fd)], processing_locks := [] },
          objects := [], metadata_object := .missing, layout_initialized := false }).2.1.core.file_cache = [] ∧
      (AmazonS3Interface.ensure_layout
        { core := { file_cache := [("z", c8fd)], processing_locks := [] },
          objects := [], metadata_object := .missing, layout_initialized := false }).2.1.metadata_object = RemoteDoc.doc []) ∧
    ((AmazonS3Interface.ensure_layout
        { core := { file_cache := [("z", c8fd)], processing_locks := [] },
          objects := [], metadata_object := .corrupt, layout_initialized := false }).1 = .error .corruptMetadata ∧
      (AmazonS3Interface.ensure_layout
        { core := { file_cache := [("z", c8fd)], processing_locks := [] },
          objects := [], metadata_object := .corrupt, layout_initialized := false }).2.1.core.file_cache = [("z", c8fd)]) ∧
    ((GoogleDriveInterface.get_drive_service
        { core := { file_cache := [("z", c8fd)], processing_locks := [] },
          drive_files := [], metadata_doc := .missing, main_folder := false,
          files_folder := false, folder_initialized := false, next_id := 0 }).1 = .ok () ∧
      (GoogleDriveInterface.get_drive_service
        { core := { file_cache := [("z", c8fd)], processing_locks := [] },
          drive_files := [], metadata_doc := .missing, main_folder := false,
          files_folder := false, folder_initialized := false, next_id := 0 }).2.1.core.file_cache = [] ∧
      (GoogleDriveInterface.get_drive_service
        { core := { file_cache := [("z", c8fd)], processing_locks := [] },
          drive_files := [], metadata_doc := .missing, main_folder := false,
          files_folder := false, folder_initialized := false, next_id := 0 }).2.1.metadata_doc = RemoteDoc.doc []) ∧
    ((GoogleDriveInterface.get_drive_service
        { core := { file_cache := [("z", c8fd)], processing_locks := [] },
          drive_files := [], metadata_doc := .corrupt, main_folder := false,
          files_folder := false, folder_initialized := false, next_id := 0 }).1 = .error .corruptMetadata ∧
      (GoogleDriveInterface.get_drive_service
        { core := { file_cache := [("z", c8fd)], processing_locks := [] },
          drive_files := [], metadata_doc := .corrupt, main_folder := false,
          files_folder := false, folder_initialized := false, next_id := 0 }).2.1.core.file_cache = [("z", c8fd)]) :=
  ⟨(C8_bootstrap_empty_vs_corrupt.1 _ rfl).1 rfl,
   (C8_bootstrap_empty_vs_corrupt.1 _ rfl).2 rfl,
   (C8_bootstrap_empty_vs_corrupt.2.1 _ rfl).1 rfl,
   (C8_bootstrap_empty_vs_corrupt.2.1 _ rfl).2 rfl,
   (C8_bootstrap_empty_vs_corrupt.2.2 _ rfl).1 rfl,
   (C8_bootstrap_empty_vs_corrupt.2.2 _ rfl).2 rfl⟩

/-! ### Claim C9 -/

/-- C9 counterexample: the claim says every adapter runs the lazy
initialization body under a dedicated exclusive lock, at most once per
process even when concurrent first calls interleave at suspension points.
The local-filesystem adapter (and the Drive adapter, which uses the same
pattern) guards the body only with the unguarded `_folder_initialized`
flag, checked before the first awaited call and set only after the body:
under the interleaving task1-check, task2-check, task1-body, task1-setFlag,
task2-body, BOTH concurrent first calls execute the initialization body. -/
theorem C9_counterexample_local_init_body_runs_twice :
    (liRun [true, false, true, true, false]).ran1 = true ∧
    (liRun [true, false, true, true, false]).ran2 = true ∧
    (liRun [true, false, true, true, false]).flag = true :=
  ⟨rfl, rfl, rfl⟩

/-- C9 amended: only the object-storage adapter runs its initialization
under the dedicated `_layout_lock` with a double-checked flag; under every
interleaving of two concurrent first calls, its initialization body
executes at most once (the two tasks never both run it).  The local and
Drive adapters use only a plain boolean flag and can run the body twice
(see the counterexample). -/
theorem C9_amended_s3_init_at_most_once (sched : List Bool) :
    ((s3Run sched).ran1 && (s3Run sched).ran2) = false := by
  have h := s3Inv_run sched
  unfold s3Inv at h
  simp only [Bool.and_eq_true] at h
  have hA := h.1.1.1.1.1.1
  cases hb : ((s3Run sched).ran1 && (s3Run sched).ran2) with
  | false => rfl
  | true => rw [hb] at hA; exact absurd hA (by decide)

/-! ### Claim C10 -/

/-- C10: for every adapter and every pair of search queries, search_files
returns the same result — the query (max_results, keywords, date filters)
is entirely ignored — and on an initialized adapter the result is exactly
the full list of cached entries with their lock-sampled is_processing
flags. -/
theorem C10_search_files_ignores_query :
    (∀ (q1 q2 : SearchQuery) (sL : LocalState),
      LocalStorageInterface.search_files q1 sL = LocalStorageInterface.search_files q2 sL) ∧
    (∀ (q : SearchQuery) (sL : LocalState), sL.folder_initialized = true →
      LocalStorageInterface.search_files q sL = ⟨.ok (listingOf sL.core), sL, []⟩) ∧
    (∀ (q1 q2 : SearchQuery) (sS : S3State),
      AmazonS3Interface.search_files q1 sS = AmazonS3Interface.search_files q2 sS) ∧
    (∀ (q : SearchQuery) (sS : S3State), sS.layout_initialized = true →
      AmazonS3Interface.search_files q sS = ⟨.ok (listingOf sS.core), sS, []⟩) ∧
    (∀ (q1 q2 : SearchQuery) (sG : GDriveState),
      GoogleDriveInterface.search_files q1 sG = GoogleDriveInterface.search_files q2 sG) ∧
    (∀ (q : SearchQuery) (sG : GDriveState), sG.folder_initialized = true →
      GoogleDriveInterface.search_files q sG = ⟨.ok (listingOf sG.core), sG, []⟩) := by
  refine ⟨fun q1 q2 sL => rfl, ?_, fun q1 q2 sS => rfl, ?_, fun q1 q2 sG => rfl, ?_⟩
  · intro q sL h
    unfold LocalStorageInterface.search_files LocalStorageInterface.ensure_folder_structure
    rw [if_pos h]
  · intro q sS h
    unfold AmazonS3Interface.search_files AmazonS3Interface.ensure_layout
    rw [if_pos h]
  · intro q sG h
    unfold GoogleDriveInterface.search_files GoogleDriveInterface.get_drive_service
    rw [if_pos h]

/-- Sample entry for the C10 witness. -/
def c10fd : FileData :=
  { file_reference := "refq", name := "q.pdf", mime_type := "application/pdf",
    size := 4, modified_time := "t0", raw_ocr := Option.none, summary := Option.none }

/-- C10 witness: the listing law evaluated on a concrete initialized local
adapter with one cached entry and a held lock, at a concrete query. -/
theorem C10_search_files_ignores_query_witness :
    LocalStorageInterface.search_files
      { max_results := 3, keywords := ["q"], last_modified_since := some "2024",
        last_modified_before := Option.none, around_date := Option.none }
      { core := { file_cache := [("q", c10fd)], processing_locks := [("q", true)] },
        disk := [], metadata_doc := .doc [("q", c10fd)], folder_initialized := true,
        files_folder := "root/files" } =
      ⟨.ok (listingOf { file_cache := [("q", c10fd)], processing_locks := [("q", true)] }),
       { core := { file_cache := [("q", c10fd)], processing_locks := [("q", true)] },
         disk := [], metadata_doc := .doc [("q", c10fd)], folder_initialized := true,
         files_folder := "root/files" }, []⟩ :=
  C10_search_files_ignores_query.2.1
    { max_results := 3, keywords := ["q"], last_modified_since := some "2024",
      last_modified_before := Option.none, around_date := Option.none }
    { core := { file_cache := [("q", c10fd)], processing_locks := [("q", true)] },
      disk := [], metadata_doc := .doc [("q", c10fd)], folder_initialized := true,
      files_folder := "root/files" } rfl

end LLMStorage
